import Mathlib

/-!
Verification of the AWS CloudControl MCP server
(`awslabs/aws_cloudcontrol_server/server.py`).

The server is a thin adapter: nine tool operations, each of which checks a
process-wide boto3 client handle, assembles a keyword-argument payload,
performs one remote call, normalizes the response (datetime → ISO text,
embedded JSON text → structured values) and converts every exception into a
uniform `{'error': ...}` result.

The embedding models:
* Python JSON values (`Json`), with `json.dumps` (default separators,
  `ensure_ascii=True`) as `pyDumps` and `json.loads` (CPython scanner
  structure) as `pyLoads`.  Numbers are modelled as Python ints only;
  float literals are outside the embedding (floating point excluded).
  Decode-error messages are modelled without the line/column suffix that
  CPython appends to `JSONDecodeError`.
* boto3 responses as structures whose optional fields mirror the `.get`/`in`
  accesses the server performs, with `datetime` values as `Datetime`.
* each tool operation as a total function from the client handle
  (`Option Unit`), its parameters, and the outcome the single remote call
  would produce (`CallOutcome`), to the returned result together with the
  notifications pushed to the caller-supplied context and the list of
  transmitted request payloads.
-/

namespace CCServer

/-! ### Python JSON values

A value a Python `json` round trip can traverse: `None`, `bool`, `int`,
`str`, `list`, `dict` (string keys, as produced by MCP argument decoding).
Python floats are not modelled.
-/

inductive Json where
  | null : Json
  | bool (b : Bool) : Json
  | int (n : Int) : Json
  | str (s : String) : Json
  | arr (items : List Json) : Json
  | obj (members : List (String × Json)) : Json
deriving Repr

/-! ### Character classes, written over `Char.toNat` -/

/-- JSON whitespace, as in CPython's `json.decoder.WHITESPACE`: space, tab,
newline, carriage return. -/
def isJsonWs (c : Char) : Bool :=
  c.toNat = 32 || c.toNat = 9 || c.toNat = 10 || c.toNat = 13

/-- An ASCII decimal digit. -/
def isDigitChar (c : Char) : Bool :=
  48 ≤ c.toNat && c.toNat ≤ 57

/-- The decimal digit character for `d < 10`. -/
def digitChar (d : Nat) : Char := Char.ofNat (48 + d)

/-- The lowercase hexadecimal digit character for `d < 16`, as produced by
Python's `\uXXXX` escapes. -/
def hexDigitChar (d : Nat) : Char :=
  if d < 10 then Char.ofNat (48 + d) else Char.ofNat (87 + d)

/-- The numeric value of a hexadecimal digit character, if it is one. -/
def hexCharValue (c : Char) : Option Nat :=
  if 48 ≤ c.toNat && c.toNat ≤ 57 then some (c.toNat - 48)
  else if 97 ≤ c.toNat && c.toNat ≤ 102 then some (c.toNat - 87)
  else if 65 ≤ c.toNat && c.toNat ≤ 70 then some (c.toNat - 55)
  else none

/-! ### `json.dumps` (default arguments: `ensure_ascii=True`,
separators `(', ', ': ')`) -/

/-- A `\uXXXX` escape for a code unit `n < 0x10000`, lowercase hex. -/
def uEscape (n : Nat) : List Char :=
  ['\\', 'u', hexDigitChar (n / 4096 % 16), hexDigitChar (n / 256 % 16),
   hexDigitChar (n / 16 % 16), hexDigitChar (n % 16)]

/-- One character as Python's `py_encode_basestring_ascii` renders it:
the seven short escapes, printable ASCII verbatim, everything else as
`\uXXXX` (a surrogate pair above `0xFFFF`). -/
def escapeAsciiChar (c : Char) : List Char :=
  if c.toNat = 92 then ['\\', '\\']
  else if c.toNat = 34 then ['\\', '"']
  else if c.toNat = 8 then ['\\', 'b']
  else if c.toNat = 12 then ['\\', 'f']
  else if c.toNat = 10 then ['\\', 'n']
  else if c.toNat = 13 then ['\\', 'r']
  else if c.toNat = 9 then ['\\', 't']
  else if 32 ≤ c.toNat ∧ c.toNat < 127 then [c]
  else if c.toNat < 65536 then uEscape c.toNat
  else
    uEscape (55296 + (c.toNat - 65536) / 1024) ++
    uEscape (56320 + (c.toNat - 65536) % 1024)

/-- A Python `str` as JSON text: quoted, each character escaped. -/
def encodeString (s : String) : List Char :=
  '"' :: (s.data.flatMap escapeAsciiChar ++ ['"'])

/-- Decimal digit characters of a natural number, most significant first. -/
def natChars (n : Nat) : List Char :=
  if n < 10 then [digitChar n] else natChars (n / 10) ++ [digitChar (n % 10)]
termination_by n
decreasing_by exact Nat.div_lt_self (by omega) (by omega)

/-- A Python `int` as `repr` renders it: optional minus sign, then digits. -/
def intChars (n : Int) : List Char :=
  if n < 0 then '-' :: natChars n.natAbs else natChars n.natAbs

mutual
/-- `json.dumps` output characters for one value. -/
def encodeVal : Json → List Char
  | .null => "null".data
  | .bool true => "true".data
  | .bool false => "false".data
  | .int n => intChars n
  | .str s => encodeString s
  | .arr items => '[' :: (encodeItems items ++ [']'])
  | .obj members => '\x7b' :: (encodePairs members ++ ['\x7d'])
/-- Array items, separated by the default item separator `', '`. -/
def encodeItems : List Json → List Char
  | [] => []
  | x :: xs => encodeVal x ++ itemsTail xs
/-- The `', '`-prefixed continuation of an item list. -/
def itemsTail : List Json → List Char
  | [] => []
  | x :: xs => ',' :: ' ' :: (encodeVal x ++ itemsTail xs)
/-- Object members `"key": value`, separated by `', '`. -/
def encodePairs : List (String × Json) → List Char
  | [] => []
  | (k, v) :: ms => encodeString k ++ ':' :: ' ' :: (encodeVal v ++ pairsTail ms)
/-- The `', '`-prefixed continuation of a member list. -/
def pairsTail : List (String × Json) → List Char
  | [] => []
  | (k, v) :: ms =>
      ',' :: ' ' :: (encodeString k ++ ':' :: ' ' :: (encodeVal v ++ pairsTail ms))
end

/-- `json.dumps` with its default arguments. -/
def pyDumps (j : Json) : String := String.mk (encodeVal j)

/-! ### `json.loads` (CPython scanner structure)

Errors carry the `JSONDecodeError` message text, without the
`: line L column C (char N)` suffix.  Fuel is an artifact of the embedding:
`pyLoads` supplies more fuel than any input can consume, so the fuel-out
branch is unreachable from `pyLoads`.
-/

/-- Skip JSON whitespace (CPython's `WHITESPACE` regex). -/
def skipJsonWs : List Char → List Char
  | c :: cs => if isJsonWs c then skipJsonWs cs else c :: cs
  | [] => []

/-- Four hexadecimal digit characters as a number below `0x10000`. -/
def hexQuad (a b c d : Char) : Option Nat := do
  let x ← hexCharValue a
  let y ← hexCharValue b
  let z ← hexCharValue c
  let w ← hexCharValue d
  return ((x * 16 + y) * 16 + z) * 16 + w

/-- The single-character escapes of CPython's `BACKSLASH` table. -/
def backslashChar (c : Char) : Option Char :=
  if c.toNat = 34 then some '"'
  else if c.toNat = 92 then some '\\'
  else if c.toNat = 47 then some '/'
  else if c.toNat = 98 then some '\x08'
  else if c.toNat = 102 then some '\x0c'
  else if c.toNat = 110 then some '\n'
  else if c.toNat = 114 then some '\r'
  else if c.toNat = 116 then some '\t'
  else none

/-- The body of a JSON string after its opening quote, as CPython's
`py_scanstring` with `strict=True` scans it: raw control characters are
invalid, `\uXXXX` escapes decode with surrogate-pair combination.  A lone
surrogate (which Python would keep in the `str`) has no `Char`
representation and is rejected here. -/
def scanStringBody (fuel : Nat) (acc : List Char) (cs : List Char) :
    Except String (String × List Char) :=
  match fuel, cs with
  | 0, _ => .error "Fuel exhausted"
  | _ + 1, [] => .error "Unterminated string starting at"
  | fuel + 1, c :: rest =>
      if c = '"' then .ok (String.mk acc.reverse, rest)
      else if c = '\\' then
        match rest with
        | 'u' :: a :: b :: d :: e :: rest2 =>
            (match hexQuad a b d e with
             | none => .error "Invalid \\uXXXX escape"
             | some n =>
                 if 55296 ≤ n ∧ n ≤ 56319 then
                   match rest2 with
                   | '\\' :: 'u' :: a2 :: b2 :: d2 :: e2 :: rest3 =>
                       (match hexQuad a2 b2 d2 e2 with
                        | none => .error "Invalid \\uXXXX escape"
                        | some m =>
                            if 56320 ≤ m ∧ m ≤ 57343 then
                              scanStringBody fuel
                                (Char.ofNat
                                  (65536 + (n - 55296) * 1024 + (m - 56320)) :: acc)
                                rest3
                            else .error "Unpaired high surrogate")
                   | _ => .error "Unpaired high surrogate"
                 else if 56320 ≤ n ∧ n ≤ 57343 then .error "Unpaired low surrogate"
                 else scanStringBody fuel (Char.ofNat n :: acc) rest2)
        | e :: rest2 =>
            (match backslashChar e with
             | some ch => scanStringBody fuel (ch :: acc) rest2
             | none => .error "Invalid \\escape")
        | [] => .error "Unterminated string starting at"
      else if c.toNat < 32 then .error "Invalid control character"
      else scanStringBody fuel (c :: acc) rest

/-- Scan a JSON string after its opening quote.  Every `scanStringBody`
step consumes at least one input character, so the fuel is unreachable. -/
def scanString (cs : List Char) : Except String (String × List Char) :=
  scanStringBody (cs.length + 1) [] cs

/-- The longest leading run of decimal digit characters. -/
def digitRun : List Char → List Char × List Char
  | c :: cs =>
      if isDigitChar c then
        let (ds, rest) := digitRun cs
        (c :: ds, rest)
      else ([], c :: cs)
  | [] => ([], [])

/-- The number a digit-character list denotes. -/
def digitsValue (ds : List Char) : Nat :=
  ds.foldl (fun a c => a * 10 + (c.toNat - 48)) 0

/-- The integer part of CPython's `NUMBER_RE`: `0`, or a nonzero digit
followed by a digit run.  (The fraction/exponent groups would produce a
Python float, which the embedding excludes.) -/
def matchUInt : List Char → Option (Nat × List Char)
  | c :: cs =>
      if c.toNat = 48 then some (0, cs)
      else if isDigitChar c then
        let (ds, rest) := digitRun cs
        some (digitsValue (c :: ds), rest)
      else none
  | [] => none

/-- A signed integer literal: optional `-`, then `matchUInt`. -/
def matchInt : List Char → Option (Int × List Char)
  | '-' :: cs => (matchUInt cs).map (fun p => (-(p.1 : Int), p.2))
  | cs => (matchUInt cs).map (fun p => ((p.1 : Int), p.2))

/-- One `d[k] = v` step of a Python dict: an existing key keeps its
position and takes the new value, a new key is appended. -/
def dictSetItem : List (String × Json) → String → Json → List (String × Json)
  | [], k, v => [(k, v)]
  | (k0, v0) :: tl, k, v =>
      if k0 = k then (k0, v) :: tl else (k0, v0) :: dictSetItem tl k v

/-- `dict(pairs)`: sequential insertion of parsed members, as CPython's
`JSONObject` builds its result. -/
def dictOfPairs (ps : List (String × Json)) : List (String × Json) :=
  ps.foldl (fun d kv => dictSetItem d kv.1 kv.2) []

mutual
/-- CPython's `_scan_once`: dispatch on the head character.  Expects its
input without leading whitespace (callers skip it, as in the decoder). -/
def scanOnce (fuel : Nat) (cs : List Char) : Except String (Json × List Char) :=
  match fuel with
  | 0 => .error "Fuel exhausted"
  | fuel + 1 =>
      match cs with
      | [] => .error "Expecting value"
      | c :: tl =>
          if c = '"' then
            match scanString tl with
            | .ok (s, rest) => .ok (.str s, rest)
            | .error e => .error e
          else if c = '\x7b' then
            match skipJsonWs tl with
            | '\x7d' :: rest => .ok (.obj [], rest)
            | '"' :: rest =>
                match objectLoop fuel [] rest with
                | .ok (ps, rest2) => .ok (.obj (dictOfPairs ps), rest2)
                | .error e => .error e
            | _ => .error "Expecting property name enclosed in double quotes"
          else if c = '[' then
            match skipJsonWs tl with
            | ']' :: rest => .ok (.arr [], rest)
            | cs1 =>
                match arrayLoop fuel [] cs1 with
                | .ok (xs, rest2) => .ok (.arr xs, rest2)
                | .error e => .error e
          else if c = 'n' then
            match tl with
            | 'u' :: 'l' :: 'l' :: rest => .ok (.null, rest)
            | _ => .error "Expecting value"
          else if c = 't' then
            match tl with
            | 'r' :: 'u' :: 'e' :: rest => .ok (.bool true, rest)
            | _ => .error "Expecting value"
          else if c = 'f' then
            match tl with
            | 'a' :: 'l' :: 's' :: 'e' :: rest => .ok (.bool false, rest)
            | _ => .error "Expecting value"
          else if c = '-' || isDigitChar c then
            match matchInt (c :: tl) with
            | some (n, rest) => .ok (.int n, rest)
            | none => .error "Expecting value"
          else .error "Expecting value"
/-- CPython's `JSONArray` loop: the input starts at a value (whitespace
already skipped); elements accumulate in order. -/
def arrayLoop (fuel : Nat) (acc : List Json) (cs : List Char) :
    Except String (List Json × List Char) :=
  match fuel with
  | 0 => .error "Fuel exhausted"
  | fuel + 1 =>
      match scanOnce fuel cs with
      | .error e => .error e
      | .ok (v, rest) =>
          match skipJsonWs rest with
          | ',' :: rest2 => arrayLoop fuel (acc ++ [v]) (skipJsonWs rest2)
          | ']' :: rest2 => .ok (acc ++ [v], rest2)
          | _ => .error "Expecting ',' delimiter"
/-- CPython's `JSONObject` loop: the input starts after the opening quote
of a key; pairs accumulate in order (the caller applies `dictOfPairs`). -/
def objectLoop (fuel : Nat) (acc : List (String × Json)) (cs : List Char) :
    Except String (List (String × Json) × List Char) :=
  match fuel with
  | 0 => .error "Fuel exhausted"
  | fuel + 1 =>
      match scanString cs with
      | .error e => .error e
      | .ok (key, rest) =>
          match skipJsonWs rest with
          | ':' :: rest2 =>
              match scanOnce fuel (skipJsonWs rest2) with
              | .error e => .error e
              | .ok (v, rest3) =>
                  match skipJsonWs rest3 with
                  | ',' :: rest4 =>
                      match skipJsonWs rest4 with
                      | '"' :: rest5 => objectLoop fuel (acc ++ [(key, v)]) rest5
                      | _ => .error "Expecting property name enclosed in double quotes"
                  | '\x7d' :: rest4 => .ok (acc ++ [(key, v)], rest4)
                  | _ => .error "Expecting ',' delimiter"
          | _ => .error "Expecting ':' delimiter"
end

/-- `json.loads`: skip leading whitespace, scan one value, require only
whitespace after it. -/
def pyLoads (s : String) : Except String Json :=
  let cs := skipJsonWs s.data
  match scanOnce (cs.length + 1) cs with
  | .error e => .error e
  | .ok (j, rest) =>
      if (skipJsonWs rest).isEmpty then .ok j else .error "Extra data"

/-! ### boto3 responses

Each structure mirrors exactly the fields the server reads off the boto3
response dict; `Option` captures the `'key' in d` / `.get('key')` accesses.
boto3 timestamps are `datetime` values, modelled by `Datetime`.
-/

/-- A Python `datetime` as far as the server uses one: `isoformat()`. -/
structure Datetime where
  year : Nat
  month : Nat
  day : Nat
  hour : Nat
  minute : Nat
  second : Nat
  microsecond : Nat

/-- `n` rendered in decimal, left-padded with zeros to `w` characters
(as Python's `%0Nd` formats the `isoformat` components). -/
def padNum (w : Nat) (n : Nat) : String :=
  let s := toString n
  String.mk (List.replicate (w - s.length) '0') ++ s

/-- `datetime.isoformat()`: `YYYY-MM-DDTHH:MM:SS`, with `.ffffff` appended
when the microsecond field is nonzero. -/
def Datetime.isoformat (t : Datetime) : String :=
  padNum 4 t.year ++ "-" ++ padNum 2 t.month ++ "-" ++ padNum 2 t.day ++ "T" ++
  padNum 2 t.hour ++ ":" ++ padNum 2 t.minute ++ ":" ++ padNum 2 t.second ++
  (if t.microsecond = 0 then "" else "." ++ padNum 6 t.microsecond)

/-- The fields the server reads from a `ProgressEvent` dict (also the shape
of a `ResourceRequestStatusSummaries` item). -/
structure ProgressEventFields where
  EventTime : Option Datetime := none
  TypeName : Option String := none
  OperationStatus : Option String := none
  Operation : Option String := none
  Identifier : Option String := none
  RequestToken : Option String := none
  StatusMessage : Option String := none

/-- A mutation response: `response['ProgressEvent']`. -/
structure MutationResponse where
  ProgressEvent : ProgressEventFields

/-- The fields the server reads from one `ResourceDescription` dict. -/
structure ResourceDescriptionFields where
  Identifier : Option String := none
  Properties : Option String := none

/-- A `get_resource` response. -/
structure GetResourceResponse where
  TypeName : Option String := none
  ResourceDescription : ResourceDescriptionFields

/-- A `list_resources` response (`.get('ResourceDescriptions', [])` makes an
absent list indistinguishable from an empty one). -/
structure ListResourcesResponse where
  TypeName : Option String := none
  ResourceDescriptions : List ResourceDescriptionFields := []
  NextToken : Option String := none

/-- A `list_resource_requests` response. -/
structure ListRequestsResponse where
  ResourceRequestStatusSummaries : List ProgressEventFields := []
  NextToken : Option String := none

/-- The fields the server reads from one `TypeSummaries` item.  All the
echoed fields are arbitrary JSON-shaped values except `LastUpdated`, which
the server formats with `.isoformat()`.  (`Type` is a Lean keyword, so the
field modelling the `'Type'` key is named `TypeKind`.) -/
structure TypeSummaryFields where
  TypeName : Option Json := none
  TypeArn : Option Json := none
  Description : Option Json := none
  ProvisioningType : Option Json := none
  DeprecatedStatus : Option Json := none
  DefaultVersionId : Option Json := none
  PublicVersionNumber : Option Json := none
  PublisherId : Option Json := none
  PublisherName : Option Json := none
  PublisherIdentity : Option Json := none
  OriginalTypeName : Option Json := none
  LastUpdated : Option Datetime := none
  LatestPublicVersion : Option Json := none
  PublisherProfile : Option Json := none
  IsActivated : Option Json := none
  Visibility : Option Json := none
  SourceUrl : Option Json := none
  DocumentationUrl : Option Json := none
  TypeKind : Option Json := none

/-- A `list_types` (CloudFormation) response. -/
structure ListTypesResponse where
  TypeSummaries : List TypeSummaryFields := []
  NextToken : Option String := none

/-! ### The tool adapter layer -/

/-- What the single remote boto3 call of an operation does when reached:
return a response, raise `botocore.exceptions.ClientError` (carrying
`str(e)`), or raise any other exception (carrying `str(e)`). -/
inductive CallOutcome (ρ : Type) where
  | ok (response : ρ)
  | clientError (details : String)
  | failure (details : String)

/-- Everything observable about one tool invocation: the returned dict, the
messages pushed through `ctx.error`, and the keyword-argument payloads
transmitted to the boto3 client (empty when no remote call was made). -/
structure ToolOutput where
  result : Json
  ctxErrors : List String
  sentRequests : List (List (String × Json))
deriving Repr

/-- A duck-typed `dict`-or-`str` parameter (`desired_state`,
`resource_model`). -/
inductive ObjOrText where
  | asObj (members : List (String × Json))
  | asText (s : String)

/-- `value.get(key)` on a result dict: `None` renders as JSON `null`. -/
def optStrJson : Option String → Json
  | some s => .str s
  | none => .null

/-- An echoed `.get(key)` of arbitrary shape. -/
def optJson : Option Json → Json
  | some v => v
  | none => .null

/-- `if x: params[key] = x` for a string-valued optional parameter
(Python truthiness: `None` and `''` are both falsy). -/
def addStrParam (ps : List (String × Json)) (key : String) (v : Option String) :
    List (String × Json) :=
  match v with
  | some s => if s = "" then ps else ps ++ [(key, .str s)]
  | none => ps

/-- `if x: params[key] = x` for a dict-valued optional parameter
(an empty dict is falsy). -/
def addObjParam (ps : List (String × Json)) (key : String)
    (v : Option (List (String × Json))) : List (String × Json) :=
  match v with
  | some [] => ps
  | some m => ps ++ [(key, .obj m)]
  | none => ps

/-- The uniform error result `{'error': msg}`. -/
def errorResult (msg : String) : Json := .obj [("error", .str msg)]

/-- The normalized `ProgressEvent` dict every mutation-shaped operation
returns: `EventTime` ISO-formatted when present (else `None`), the six other
fields echoed via `.get`. -/
def progressEventJson (pe : ProgressEventFields) : Json :=
  .obj [
    ("EventTime",
      match pe.EventTime with
      | some t => .str t.isoformat
      | none => .null),
    ("TypeName", optStrJson pe.TypeName),
    ("OperationStatus", optStrJson pe.OperationStatus),
    ("Operation", optStrJson pe.Operation),
    ("Identifier", optStrJson pe.Identifier),
    ("RequestToken", optStrJson pe.RequestToken),
    ("StatusMessage", optStrJson pe.StatusMessage)]

/-- The three `except` shapes shared by the eight CloudControl operations:
`ClientError` → `'AWS CloudControl API error: ...'`, any other exception →
`'Error <verb>ing <noun>: ...'`; both emit a `ctx.error` notification. -/
def cloudControlCall (ρ : Type) (genericLabel : String)
    (params : List (String × Json)) (outcome : CallOutcome ρ)
    (normalize : ρ → Except String Json) : ToolOutput :=
  match outcome with
  | .ok resp =>
      match normalize resp with
      | .ok value => ⟨value, [], [params]⟩
      | .error details =>
          let msg := genericLabel ++ details
          ⟨errorResult msg, [msg], [params]⟩
  | .clientError details =>
      let msg := "AWS CloudControl API error: " ++ details
      ⟨errorResult msg, [msg], [params]⟩
  | .failure details =>
      let msg := genericLabel ++ details
      ⟨errorResult msg, [msg], [params]⟩

/-- The unset-handle early return shared by all nine operations. -/
def clientNotInitialized (component : String) : ToolOutput :=
  let msg := component ++ " client not initialized"
  ⟨errorResult msg, [msg], []⟩

/-- `create_resource`. -/
def create_resource (cloudcontrol_client : Option Unit) (type_name : String)
    (desired_state : ObjOrText) (role_arn : Option String := none)
    (client_token : Option String := none)
    (outcome : CallOutcome MutationResponse) : ToolOutput :=
  match cloudcontrol_client with
  | none => clientNotInitialized "AWS CloudControl API"
  | some _ =>
      let desired_state_json : String :=
        match desired_state with
        | .asObj m => pyDumps (.obj m)
        | .asText s => s
      let params := [("TypeName", Json.str type_name),
                     ("DesiredState", Json.str desired_state_json)]
      let params := addStrParam params "RoleArn" role_arn
      let params := addStrParam params "ClientToken" client_token
      cloudControlCall MutationResponse "Error creating resource: " params outcome
        (fun resp => .ok (.obj [("ProgressEvent", progressEventJson resp.ProgressEvent)]))

/-- `get_resource`: the one operation whose normalization itself can raise
(`json.loads` of the `Properties` text); a decode failure falls to the
generic `except` branch. -/
def get_resource (cloudcontrol_client : Option Unit) (type_name : String)
    (identifier : String) (role_arn : Option String := none)
    (outcome : CallOutcome GetResourceResponse) : ToolOutput :=
  match cloudcontrol_client with
  | none => clientNotInitialized "AWS CloudControl API"
  | some _ =>
      let params := [("TypeName", Json.str type_name),
                     ("Identifier", Json.str identifier)]
      let params := addStrParam params "RoleArn" role_arn
      cloudControlCall GetResourceResponse "Error getting resource: " params outcome
        (fun resp =>
          match pyLoads (resp.ResourceDescription.Properties.getD "\x7b\x7d") with
          | .ok props =>
              .ok (.obj [("TypeName", optStrJson resp.TypeName),
                         ("ResourceDescription",
                          .obj [("Identifier",
                                 optStrJson resp.ResourceDescription.Identifier),
                                ("Properties", props)])])
          | .error e => .error e)

/-- `update_resource`. -/
def update_resource (cloudcontrol_client : Option Unit) (type_name : String)
    (identifier : String) (patch_document : String)
    (role_arn : Option String := none) (client_token : Option String := none)
    (outcome : CallOutcome MutationResponse) : ToolOutput :=
  match cloudcontrol_client with
  | none => clientNotInitialized "AWS CloudControl API"
  | some _ =>
      let params := [("TypeName", Json.str type_name),
                     ("Identifier", Json.str identifier),
                     ("PatchDocument", Json.str patch_document)]
      let params := addStrParam params "RoleArn" role_arn
      let params := addStrParam params "ClientToken" client_token
      cloudControlCall MutationResponse "Error updating resource: " params outcome
        (fun resp => .ok (.obj [("ProgressEvent", progressEventJson resp.ProgressEvent)]))

/-- `delete_resource`. -/
def delete_resource (cloudcontrol_client : Option Unit) (type_name : String)
    (identifier : String) (role_arn : Option String := none)
    (client_token : Option String := none)
    (outcome : CallOutcome MutationResponse) : ToolOutput :=
  match cloudcontrol_client with
  | none => clientNotInitialized "AWS CloudControl API"
  | some _ =>
      let params := [("TypeName", Json.str type_name),
                     ("Identifier", Json.str identifier)]
      let params := addStrParam params "RoleArn" role_arn
      let params := addStrParam params "ClientToken" client_token
      cloudControlCall MutationResponse "Error deleting resource: " params outcome
        (fun resp => .ok (.obj [("ProgressEvent", progressEventJson resp.ProgressEvent)]))

/-- The per-descriptor normalization inside `list_resources`: parse the
`Properties` JSON text, degrading that one descriptor to `{}` on a
`JSONDecodeError`. -/
def normalizeDescriptor (resource : ResourceDescriptionFields) : Json :=
  let properties :=
    match pyLoads (resource.Properties.getD "\x7b\x7d") with
    | .ok props => props
    | .error _ => Json.obj []
  .obj [("Identifier", optStrJson resource.Identifier),
        ("Properties", properties)]

/-- `list_resources`. -/
def list_resources (cloudcontrol_client : Option Unit) (type_name : String)
    (resource_model : Option ObjOrText := none) (role_arn : Option String := none)
    (next_token : Option String := none)
    (outcome : CallOutcome ListResourcesResponse) : ToolOutput :=
  match cloudcontrol_client with
  | none => clientNotInitialized "AWS CloudControl API"
  | some _ =>
      let params := [("TypeName", Json.str type_name)]
      let params :=
        match resource_model with
        | some (.asObj m) =>
            if m.isEmpty then params
            else params ++ [("ResourceModel", Json.str (pyDumps (.obj m)))]
        | some (.asText s) =>
            if s = "" then params else params ++ [("ResourceModel", Json.str s)]
        | none => params
      let params := addStrParam params "RoleArn" role_arn
      let params := addStrParam params "NextToken" next_token
      cloudControlCall ListResourcesResponse "Error listing resources: " params outcome
        (fun resp =>
          .ok (.obj
            ([("TypeName", optStrJson resp.TypeName),
              ("ResourceDescriptions",
               .arr (resp.ResourceDescriptions.map normalizeDescriptor))] ++
             (match resp.NextToken with
              | some t => [("NextToken", Json.str t)]
              | none => []))))

/-- `get_resource_request_status`. -/
def get_resource_request_status (cloudcontrol_client : Option Unit)
    (request_token : String) (outcome : CallOutcome MutationResponse) : ToolOutput :=
  match cloudcontrol_client with
  | none => clientNotInitialized "AWS CloudControl API"
  | some _ =>
      let params := [("RequestToken", Json.str request_token)]
      cloudControlCall MutationResponse "Error getting resource request status: "
        params outcome
        (fun resp => .ok (.obj [("ProgressEvent", progressEventJson resp.ProgressEvent)]))

/-- `cancel_resource_request`. -/
def cancel_resource_request (cloudcontrol_client : Option Unit)
    (request_token : String) (outcome : CallOutcome MutationResponse) : ToolOutput :=
  match cloudcontrol_client with
  | none => clientNotInitialized "AWS CloudControl API"
  | some _ =>
      let params := [("RequestToken", Json.str request_token)]
      cloudControlCall MutationResponse "Error canceling resource request: "
        params outcome
        (fun resp => .ok (.obj [("ProgressEvent", progressEventJson resp.ProgressEvent)]))

/-- The per-summary normalization inside `list_resource_requests`. -/
def normalizeSummary (summary : ProgressEventFields) : Json :=
  .obj [
    ("EventTime",
      match summary.EventTime with
      | some t => .str t.isoformat
      | none => .null),
    ("TypeName", optStrJson summary.TypeName),
    ("OperationStatus", optStrJson summary.OperationStatus),
    ("Operation", optStrJson summary.Operation),
    ("Identifier", optStrJson summary.Identifier),
    ("RequestToken", optStrJson summary.RequestToken),
    ("StatusMessage", optStrJson summary.StatusMessage)]

/-- `list_resource_requests`. -/
def list_resource_requests (cloudcontrol_client : Option Unit)
    (resource_request_status_filter : Option (List (String × Json)) := none)
    (next_token : Option String := none)
    (outcome : CallOutcome ListRequestsResponse) : ToolOutput :=
  match cloudcontrol_client with
  | none => clientNotInitialized "AWS CloudControl API"
  | some _ =>
      let params := addObjParam [] "ResourceRequestStatusFilter"
        resource_request_status_filter
      let params := addStrParam params "NextToken" next_token
      cloudControlCall ListRequestsResponse "Error listing resource requests: "
        params outcome
        (fun resp =>
          .ok (.obj
            ([("ResourceRequestStatusSummaries",
               .arr (resp.ResourceRequestStatusSummaries.map normalizeSummary))] ++
             (match resp.NextToken with
              | some t => [("NextToken", Json.str t)]
              | none => []))))

/-- The per-summary normalization inside `list_resource_types`. -/
def normalizeTypeSummary (summary : TypeSummaryFields) : Json :=
  .obj [
    ("TypeName", optJson summary.TypeName),
    ("TypeArn", optJson summary.TypeArn),
    ("Description", optJson summary.Description),
    ("ProvisioningType", optJson summary.ProvisioningType),
    ("DeprecatedStatus", optJson summary.DeprecatedStatus),
    ("DefaultVersionId", optJson summary.DefaultVersionId),
    ("PublicVersionNumber", optJson summary.PublicVersionNumber),
    ("PublisherId", optJson summary.PublisherId),
    ("PublisherName", optJson summary.PublisherName),
    ("PublisherIdentity", optJson summary.PublisherIdentity),
    ("OriginalTypeName", optJson summary.OriginalTypeName),
    ("LastUpdated",
      match summary.LastUpdated with
      | some t => .str t.isoformat
      | none => .null),
    ("LatestPublicVersion", optJson summary.LatestPublicVersion),
    ("PublisherProfile", optJson summary.PublisherProfile),
    ("IsActivated", optJson summary.IsActivated),
    ("Visibility", optJson summary.Visibility),
    ("SourceUrl", optJson summary.SourceUrl),
    ("DocumentationUrl", optJson summary.DocumentationUrl),
    ("Type", optJson summary.TypeKind)]

/-- `list_resource_types` — the one operation on the CloudFormation handle,
with `'AWS CloudFormation'` in both of its error shapes. -/
def list_resource_types (cloudformation_client : Option Unit)
    (filters : Option (List (String × Json)) := none)
    (outcome : CallOutcome ListTypesResponse) : ToolOutput :=
  match cloudformation_client with
  | none => clientNotInitialized "AWS CloudFormation"
  | some _ =>
      let params := addObjParam [] "Filters" filters
      match outcome with
      | .ok resp =>
          ⟨.obj
            ([("TypeSummaries",
               .arr (resp.TypeSummaries.map normalizeTypeSummary))] ++
             (match resp.NextToken with
              | some t => [("NextToken", Json.str t)]
              | none => [])),
           [], [params]⟩
      | .clientError details =>
          let msg := "AWS CloudFormation API error: " ++ details
          ⟨errorResult msg, [msg], [params]⟩
      | .failure details =>
          let msg := "Error listing resource types: " ++ details
          ⟨errorResult msg, [msg], [params]⟩

/-! ### Observation helpers for the theorems -/

/-- First binding of a key in an association list (Python dict lookup on the
payloads and result dicts built above, whose keys are distinct). -/
def lookupKey (key : String) : List (String × Json) → Option Json
  | [] => none
  | (k, v) :: tl => if k = key then some v else lookupKey key tl

/-- Lookup of a key in a JSON object result. -/
def Json.getKey : Json → String → Option Json
  | .obj ms, key => lookupKey key ms
  | _, _ => none

/-- The single transmitted payload of an invocation that made its remote
call (`[]` if none was made). -/
def firstPayload (o : ToolOutput) : List (String × Json) :=
  o.sentRequests.headD []

/-! ### C1: unset client handle -/

/-- **C1.** For each of the nine operations, with the relevant client handle
unset the returned result is exactly
`{'error': '<component> client not initialized'}` (component
`AWS CloudControl API` for the eight CloudControl operations,
`AWS CloudFormation` for `list_resource_types`), the same message is pushed
through `ctx.error`, and no remote request is transmitted. -/
theorem unset_client_uniform_error
    (tn idf pd rtok : String) (ds : ObjOrText) (ra ct nt : Option String)
    (rm : Option ObjOrText) (fl rqf : Option (List (String × Json)))
    (o1 o3 o4 o6 o7 : CallOutcome MutationResponse)
    (o2 : CallOutcome GetResourceResponse) (o5 : CallOutcome ListResourcesResponse)
    (o8 : CallOutcome ListRequestsResponse) (o9 : CallOutcome ListTypesResponse) :
    create_resource none tn ds ra ct o1 =
      ⟨errorResult "AWS CloudControl API client not initialized",
       ["AWS CloudControl API client not initialized"], []⟩ ∧
    get_resource none tn idf ra o2 =
      ⟨errorResult "AWS CloudControl API client not initialized",
       ["AWS CloudControl API client not initialized"], []⟩ ∧
    update_resource none tn idf pd ra ct o3 =
      ⟨errorResult "AWS CloudControl API client not initialized",
       ["AWS CloudControl API client not initialized"], []⟩ ∧
    delete_resource none tn idf ra ct o4 =
      ⟨errorResult "AWS CloudControl API client not initialized",
       ["AWS CloudControl API client not initialized"], []⟩ ∧
    list_resources none tn rm ra nt o5 =
      ⟨errorResult "AWS CloudControl API client not initialized",
       ["AWS CloudControl API client not initialized"], []⟩ ∧
    get_resource_request_status none rtok o6 =
      ⟨errorResult "AWS CloudControl API client not initialized",
       ["AWS CloudControl API client not initialized"], []⟩ ∧
    cancel_resource_request none rtok o7 =
      ⟨errorResult "AWS CloudControl API client not initialized",
       ["AWS CloudControl API client not initialized"], []⟩ ∧
    list_resource_requests none rqf nt o8 =
      ⟨errorResult "AWS CloudControl API client not initialized",
       ["AWS CloudControl API client not initialized"], []⟩ ∧
    list_resource_types none fl o9 =
      ⟨errorResult "AWS CloudFormation client not initialized",
       ["AWS CloudFormation client not initialized"], []⟩ :=
  ⟨rfl, rfl, rfl, rfl, rfl, rfl, rfl, rfl, rfl⟩

/-! ### C2: exception capture at the operation boundary -/

/-- **C2.** For every operation with its handle set: a structured remote
fault (`ClientError`, carrying `details`) produces the result
`{'error': '<API> error: <details>'}` and that message as the single
`ctx.error` notification; any other exception produces
`{'error': 'Error <verb>ing <noun>: <details>'}` likewise.  Each operation
is a total function, so neither exception propagates past the boundary. -/
theorem exceptions_uniform_error
    (tn idf pd rtok details : String) (ds : ObjOrText) (ra ct nt : Option String)
    (rm : Option ObjOrText) (fl rqf : Option (List (String × Json))) :
    ((create_resource (some ()) tn ds ra ct (.clientError details)).result =
        errorResult ("AWS CloudControl API error: " ++ details) ∧
      (create_resource (some ()) tn ds ra ct (.clientError details)).ctxErrors =
        ["AWS CloudControl API error: " ++ details] ∧
      (create_resource (some ()) tn ds ra ct (.failure details)).result =
        errorResult ("Error creating resource: " ++ details) ∧
      (create_resource (some ()) tn ds ra ct (.failure details)).ctxErrors =
        ["Error creating resource: " ++ details]) ∧
    ((get_resource (some ()) tn idf ra (.clientError details)).result =
        errorResult ("AWS CloudControl API error: " ++ details) ∧
      (get_resource (some ()) tn idf ra (.clientError details)).ctxErrors =
        ["AWS CloudControl API error: " ++ details] ∧
      (get_resource (some ()) tn idf ra (.failure details)).result =
        errorResult ("Error getting resource: " ++ details) ∧
      (get_resource (some ()) tn idf ra (.failure details)).ctxErrors =
        ["Error getting resource: " ++ details]) ∧
    ((update_resource (some ()) tn idf pd ra ct (.clientError details)).result =
        errorResult ("AWS CloudControl API error: " ++ details) ∧
      (update_resource (some ()) tn idf pd ra ct (.clientError details)).ctxErrors =
        ["AWS CloudControl API error: " ++ details] ∧
      (update_resource (some ()) tn idf pd ra ct (.failure details)).result =
        errorResult ("Error updating resource: " ++ details) ∧
      (update_resource (some ()) tn idf pd ra ct (.failure details)).ctxErrors =
        ["Error updating resource: " ++ details]) ∧
    ((delete_resource (some ()) tn idf ra ct (.clientError details)).result =
        errorResult ("AWS CloudControl API error: " ++ details) ∧
      (delete_resource (some ()) tn idf ra ct (.clientError details)).ctxErrors =
        ["AWS CloudControl API error: " ++ details] ∧
      (delete_resource (some ()) tn idf ra ct (.failure details)).result =
        errorResult ("Error deleting resource: " ++ details) ∧
      (delete_resource (some ()) tn idf ra ct (.failure details)).ctxErrors =
        ["Error deleting resource: " ++ details]) ∧
    ((list_resources (some ()) tn rm ra nt (.clientError details)).result =
        errorResult ("AWS CloudControl API error: " ++ details) ∧
      (list_resources (some ()) tn rm ra nt (.clientError details)).ctxErrors =
        ["AWS CloudControl API error: " ++ details] ∧
      (list_resources (some ()) tn rm ra nt (.failure details)).result =
        errorResult ("Error listing resources: " ++ details) ∧
      (list_resources (some ()) tn rm ra nt (.failure details)).ctxErrors =
        ["Error listing resources: " ++ details]) ∧
    ((get_resource_request_status (some ()) rtok (.clientError details)).result =
        errorResult ("AWS CloudControl API error: " ++ details) ∧
      (get_resource_request_status (some ()) rtok (.clientError details)).ctxErrors =
        ["AWS CloudControl API error: " ++ details] ∧
      (get_resource_request_status (some ()) rtok (.failure details)).result =
        errorResult ("Error getting resource request status: " ++ details) ∧
      (get_resource_request_status (some ()) rtok (.failure details)).ctxErrors =
        ["Error getting resource request status: " ++ details]) ∧
    ((cancel_resource_request (some ()) rtok (.clientError details)).result =
        errorResult ("AWS CloudControl API error: " ++ details) ∧
      (cancel_resource_request (some ()) rtok (.clientError details)).ctxErrors =
        ["AWS CloudControl API error: " ++ details] ∧
      (cancel_resource_request (some ()) rtok (.failure details)).result =
        errorResult ("Error canceling resource request: " ++ details) ∧
      (cancel_resource_request (some ()) rtok (.failure details)).ctxErrors =
        ["Error canceling resource request: " ++ details]) ∧
    ((list_resource_requests (some ()) rqf nt (.clientError details)).result =
        errorResult ("AWS CloudControl API error: " ++ details) ∧
      (list_resource_requests (some ()) rqf nt (.clientError details)).ctxErrors =
        ["AWS CloudControl API error: " ++ details] ∧
      (list_resource_requests (some ()) rqf nt (.failure details)).result =
        errorResult ("Error listing resource requests: " ++ details) ∧
      (list_resource_requests (some ()) rqf nt (.failure details)).ctxErrors =
        ["Error listing resource requests: " ++ details]) ∧
    ((list_resource_types (some ()) fl (.clientError details)).result =
        errorResult ("AWS CloudFormation API error: " ++ details) ∧
      (list_resource_types (some ()) fl (.clientError details)).ctxErrors =
        ["AWS CloudFormation API error: " ++ details] ∧
      (list_resource_types (some ()) fl (.failure details)).result =
        errorResult ("Error listing resource types: " ++ details) ∧
      (list_resource_types (some ()) fl (.failure details)).ctxErrors =
        ["Error listing resource types: " ++ details]) :=
  ⟨⟨rfl, rfl, rfl, rfl⟩, ⟨rfl, rfl, rfl, rfl⟩, ⟨rfl, rfl, rfl, rfl⟩,
   ⟨rfl, rfl, rfl, rfl⟩, ⟨rfl, rfl, rfl, rfl⟩, ⟨rfl, rfl, rfl, rfl⟩,
   ⟨rfl, rfl, rfl, rfl⟩, ⟨rfl, rfl, rfl, rfl⟩, ⟨rfl, rfl, rfl, rfl⟩⟩

/-! ### Payload bookkeeping lemmas -/

/-- Once the handle check has passed, the assembled payload is transmitted
whatever the call's outcome. -/
theorem cloudControlCall_sent (ρ : Type) (pre : String)
    (params : List (String × Json)) (outcome : CallOutcome ρ)
    (normalize : ρ → Except String Json) :
    (cloudControlCall ρ pre params outcome normalize).sentRequests = [params] := by
  cases outcome with
  | ok r =>
      simp only [cloudControlCall]
      split <;> rfl
  | clientError d => rfl
  | failure d => rfl

theorem addStrParam_of_ne (ps : List (String × Json)) (key : String)
    (s : String) (h : ¬ s = "") :
    addStrParam ps key (some s) = ps ++ [(key, .str s)] := by
  simp [addStrParam, h]

theorem lookupKey_append_of_none (k : String) (ps qs : List (String × Json))
    (h : lookupKey k ps = none) : lookupKey k (ps ++ qs) = lookupKey k qs := by
  induction ps with
  | nil => rfl
  | cons p tl ih =>
      simp only [lookupKey, List.cons_append] at h ⊢
      split at h
      · exact absurd h (by simp)
      · simp only [*]
        exact ih h

theorem lookupKey_addStrParam_of_none (k key : String) (v : Option String)
    (ps : List (String × Json)) (hk : ¬ key = k) (h : lookupKey k ps = none) :
    lookupKey k (addStrParam ps key v) = none := by
  cases v with
  | none => exact h
  | some s =>
      simp only [addStrParam]
      split
      · exact h
      · rw [lookupKey_append_of_none k ps _ h]
        simp [lookupKey, hk]

/-! ### C6: the `Operation` field of a create result -/

/-- **C6, counterexample.**  A successful `create_resource` invocation
(client set, remote call returns a response) whose remote `ProgressEvent`
carries `Operation = 'UPDATE'` returns a Progress Event whose `Operation`
field is `'UPDATE'`, not `'create'`: the claimed constant value fails. -/
theorem create_operation_field_not_create :
    ((create_resource (some ()) "AWS::Logs::LogGroup" (.asObj []) none none
        (.ok ⟨{ Operation := some "UPDATE" }⟩)).result.getKey
       "ProgressEvent").bind (fun pe => pe.getKey "Operation") =
      some (Json.str "UPDATE") ∧
    "UPDATE" ≠ "create" :=
  ⟨rfl, by decide⟩

/-- **C6, amended.**  `create_resource` copies the `Operation` field of the
remote response's `ProgressEvent` into the returned Progress Event verbatim
(`None` → JSON `null`); it does not constrain it to `'create'` — the field
equals `'create'` exactly when the remote response says so. -/
theorem create_resource_echoes_operation (tn : String) (ds : ObjOrText)
    (ra ct : Option String) (resp : MutationResponse) :
    (create_resource (some ()) tn ds ra ct (.ok resp)).result =
      .obj [("ProgressEvent", progressEventJson resp.ProgressEvent)] ∧
    (progressEventJson resp.ProgressEvent).getKey "Operation" =
      some (optStrJson resp.ProgressEvent.Operation) :=
  ⟨rfl, rfl⟩

/-! ### C7: idempotency token round-trip -/

/-- **C7, counterexample.**  The empty string is a supplied `client_token`,
yet it is dropped from the transmitted payload (Python truthiness): after
`create_resource(..., client_token='')` the payload has no `ClientToken`
key at all. -/
theorem empty_client_token_dropped :
    lookupKey "ClientToken"
      (firstPayload (create_resource (some ()) "AWS::Logs::LogGroup"
        (.asObj []) none (some "") (.failure "boom"))) = none :=
  rfl

/-- **C7, amended.**  For `create_resource`, `update_resource` and
`delete_resource`, a *non-empty* `client_token` string appears verbatim in
the transmitted payload under the key `'ClientToken'` (the empty string,
being falsy, is treated as absent). -/
theorem client_token_in_payload (tn idf pd tok : String) (ds : ObjOrText)
    (ra : Option String) (o1 o3 o4 : CallOutcome MutationResponse)
    (h : tok ≠ "") :
    lookupKey "ClientToken"
        (firstPayload (create_resource (some ()) tn ds ra (some tok) o1)) =
      some (.str tok) ∧
    lookupKey "ClientToken"
        (firstPayload (update_resource (some ()) tn idf pd ra (some tok) o3)) =
      some (.str tok) ∧
    lookupKey "ClientToken"
        (firstPayload (delete_resource (some ()) tn idf ra (some tok) o4)) =
      some (.str tok) := by
  have hbase : ∀ ps : List (String × Json), lookupKey "ClientToken" ps = none →
      lookupKey "ClientToken"
        (addStrParam (addStrParam ps "RoleArn" ra) "ClientToken" (some tok)) =
      some (.str tok) := by
    intro ps hps
    rw [addStrParam_of_ne _ _ _ h,
        lookupKey_append_of_none _ _ _
          (lookupKey_addStrParam_of_none _ "RoleArn" ra ps (by decide) hps)]
    rfl
  refine ⟨?_, ?_, ?_⟩
  · show lookupKey "ClientToken"
      (firstPayload (cloudControlCall MutationResponse _ _ o1 _)) = _
    rw [firstPayload, cloudControlCall_sent]
    exact hbase _ rfl
  · show lookupKey "ClientToken"
      (firstPayload (cloudControlCall MutationResponse _ _ o3 _)) = _
    rw [firstPayload, cloudControlCall_sent]
    exact hbase _ rfl
  · show lookupKey "ClientToken"
      (firstPayload (cloudControlCall MutationResponse _ _ o4 _)) = _
    rw [firstPayload, cloudControlCall_sent]
    exact hbase _ rfl

/-- **C7, witness.** -/
theorem client_token_in_payload_witness :
    lookupKey "ClientToken"
        (firstPayload (create_resource (some ()) "AWS::Logs::LogGroup"
          (.asObj []) none (some "tok-123") (.failure "boom"))) =
      some (.str "tok-123") ∧
    lookupKey "ClientToken"
        (firstPayload (update_resource (some ()) "AWS::Logs::LogGroup" "lg" "[]"
          none (some "tok-123") (.failure "boom"))) =
      some (.str "tok-123") ∧
    lookupKey "ClientToken"
        (firstPayload (delete_resource (some ()) "AWS::Logs::LogGroup" "lg"
          none (some "tok-123") (.failure "boom"))) =
      some (.str "tok-123") :=
  client_token_in_payload "AWS::Logs::LogGroup" "lg" "[]" "tok-123"
    (.asObj []) none (.failure "boom") (.failure "boom") (.failure "boom")
    (by decide)

/-! ### C8: timestamp normalization in the two summary lists -/

/-- **C8.**  `list_resource_types` renders each summary through
`normalizeTypeSummary`, and `list_resource_requests` through
`normalizeSummary`; a present `LastUpdated`/`EventTime` timestamp becomes
its `isoformat()` text in the corresponding result item, an absent one
becomes JSON `null`. -/
theorem summary_timestamps_iso_or_null (nt : Option String)
    (fl rqf : Option (List (String × Json)))
    (resp8 : ListRequestsResponse) (resp9 : ListTypesResponse)
    (s8 : ProgressEventFields) (s9 : TypeSummaryFields) (t : Datetime) :
    (list_resource_types (some ()) fl (.ok resp9)).result.getKey
        "TypeSummaries" =
      some (.arr (resp9.TypeSummaries.map normalizeTypeSummary)) ∧
    (normalizeTypeSummary { s9 with LastUpdated := some t }).getKey
        "LastUpdated" = some (.str t.isoformat) ∧
    (normalizeTypeSummary { s9 with LastUpdated := none }).getKey
        "LastUpdated" = some .null ∧
    (list_resource_requests (some ()) rqf nt (.ok resp8)).result.getKey
        "ResourceRequestStatusSummaries" =
      some (.arr (resp8.ResourceRequestStatusSummaries.map normalizeSummary)) ∧
    (normalizeSummary { s8 with EventTime := some t }).getKey "EventTime" =
      some (.str t.isoformat) ∧
    (normalizeSummary { s8 with EventTime := none }).getKey "EventTime" =
      some .null :=
  ⟨rfl, rfl, rfl, rfl, rfl, rfl⟩

/-! ### C9: pagination token echo -/

/-- **C9.**  For the three list operations, a `NextToken` present in the
remote response appears verbatim under `'NextToken'` in the result, and
with no `NextToken` in the response the result carries no `'NextToken'`
key. -/
theorem next_token_echoed (tn t : String) (rm : Option ObjOrText)
    (ra nt : Option String) (fl rqf : Option (List (String × Json)))
    (resp5 : ListResourcesResponse) (resp8 : ListRequestsResponse)
    (resp9 : ListTypesResponse) :
    (list_resources (some ()) tn rm ra nt
        (.ok { resp5 with NextToken := some t })).result.getKey "NextToken" =
      some (.str t) ∧
    (list_resources (some ()) tn rm ra nt
        (.ok { resp5 with NextToken := none })).result.getKey "NextToken" =
      none ∧
    (list_resource_requests (some ()) rqf nt
        (.ok { resp8 with NextToken := some t })).result.getKey "NextToken" =
      some (.str t) ∧
    (list_resource_requests (some ()) rqf nt
        (.ok { resp8 with NextToken := none })).result.getKey "NextToken" =
      none ∧
    (list_resource_types (some ()) fl
        (.ok { resp9 with NextToken := some t })).result.getKey "NextToken" =
      some (.str t) ∧
    (list_resource_types (some ()) fl
        (.ok { resp9 with NextToken := none })).result.getKey "NextToken" =
      none :=
  ⟨rfl, rfl, rfl, rfl, rfl, rfl⟩

/-! ### C10: falsy optional parameters are treated as absent -/

/-- **C10.**  Supplying a falsy value for an optional parameter — `''` for
`role_arn`, `client_token` or `next_token`, `{}` for `resource_model`,
`filters` or `resource_request_status_filter` — produces exactly the same
invocation (result, notifications, transmitted payloads) as omitting the
parameter; and with the parameter omitted the corresponding key is absent
from the transmitted payload. -/
theorem falsy_optional_params_dropped (tn idf pd : String) (ds : ObjOrText)
    (ra ct nt : Option String) (rm : Option ObjOrText)
    (rqf : Option (List (String × Json)))
    (o1 o3 o4 : CallOutcome MutationResponse)
    (o2 : CallOutcome GetResourceResponse) (o5 : CallOutcome ListResourcesResponse)
    (o8 : CallOutcome ListRequestsResponse) (o9 : CallOutcome ListTypesResponse) :
    (create_resource (some ()) tn ds (some "") ct o1 =
        create_resource (some ()) tn ds none ct o1 ∧
      create_resource (some ()) tn ds ra (some "") o1 =
        create_resource (some ()) tn ds ra none o1) ∧
    get_resource (some ()) tn idf (some "") o2 =
      get_resource (some ()) tn idf none o2 ∧
    (update_resource (some ()) tn idf pd (some "") ct o3 =
        update_resource (some ()) tn idf pd none ct o3 ∧
      update_resource (some ()) tn idf pd ra (some "") o3 =
        update_resource (some ()) tn idf pd ra none o3) ∧
    (delete_resource (some ()) tn idf (some "") ct o4 =
        delete_resource (some ()) tn idf none ct o4 ∧
      delete_resource (some ()) tn idf ra (some "") o4 =
        delete_resource (some ()) tn idf ra none o4) ∧
    (list_resources (some ()) tn (some (.asObj [])) ra nt o5 =
        list_resources (some ()) tn none ra nt o5 ∧
      list_resources (some ()) tn (some (.asText "")) ra nt o5 =
        list_resources (some ()) tn none ra nt o5 ∧
      list_resources (some ()) tn rm (some "") nt o5 =
        list_resources (some ()) tn rm none nt o5 ∧
      list_resources (some ()) tn rm ra (some "") o5 =
        list_resources (some ()) tn rm ra none o5) ∧
    (list_resource_requests (some ()) (some []) nt o8 =
        list_resource_requests (some ()) none nt o8 ∧
      list_resource_requests (some ()) rqf (some "") o8 =
        list_resource_requests (some ()) rqf none o8) ∧
    list_resource_types (some ()) (some []) o9 =
      list_resource_types (some ()) none o9 ∧
    (lookupKey "RoleArn"
        (firstPayload (create_resource (some ()) tn ds none ct o1)) = none ∧
      lookupKey "ClientToken"
        (firstPayload (create_resource (some ()) tn ds ra none o1)) = none ∧
      lookupKey "NextToken"
        (firstPayload (list_resources (some ()) tn rm ra none o5)) = none) := by
  refine ⟨⟨rfl, rfl⟩, rfl, ⟨rfl, rfl⟩, ⟨rfl, rfl⟩, ⟨rfl, rfl, rfl, rfl⟩,
    ⟨rfl, rfl⟩, rfl, ?_, ?_, ?_⟩
  · show lookupKey "RoleArn"
      (firstPayload (cloudControlCall MutationResponse _ _ o1 _)) = none
    rw [firstPayload, cloudControlCall_sent]
    exact lookupKey_addStrParam_of_none _ "ClientToken" ct _ (by decide) rfl
  · show lookupKey "ClientToken"
      (firstPayload (cloudControlCall MutationResponse _ _ o1 _)) = none
    rw [firstPayload, cloudControlCall_sent]
    show lookupKey "ClientToken" (addStrParam _ "RoleArn" ra) = none
    exact lookupKey_addStrParam_of_none _ "RoleArn" ra _ (by decide) rfl
  · show lookupKey "NextToken"
      (firstPayload (cloudControlCall ListResourcesResponse _ _ o5 _)) = none
    rw [firstPayload, cloudControlCall_sent]
    show lookupKey "NextToken"
      (addStrParam (addStrParam _ "RoleArn" ra) "NextToken" none) = none
    refine lookupKey_addStrParam_of_none _ "RoleArn" ra _ (by decide) ?_
    cases rm with
    | none => rfl
    | some v =>
        cases v with
        | asObj m => cases m with
            | nil => rfl
            | cons p tl => rfl
        | asText s =>
            by_cases hs : s = ""
            · simp only [hs, if_pos rfl]
              rfl
            · simp only [if_neg hs]
              rfl

/-! ### C3: `get_resource` property parsing is all-or-nothing -/

/-- **C3.**  When the response's `ResourceDescription.Properties` text
parses (the text defaults to `'{}'` when absent), `get_resource` returns the
full descriptor with the parsed object as `Properties`; when it does not
parse, the whole call returns the generic
`{'error': 'Error getting resource: ...'}` result (with the matching
`ctx.error` notification), never a partial result. -/
theorem get_resource_properties_parse (tn idf : String) (ra : Option String)
    (resp : GetResourceResponse) (props : Json) (e : String) :
    (pyLoads (resp.ResourceDescription.Properties.getD "\x7b\x7d") = .ok props →
      get_resource (some ()) tn idf ra (.ok resp) =
        ⟨.obj [("TypeName", optStrJson resp.TypeName),
               ("ResourceDescription",
                .obj [("Identifier", optStrJson resp.ResourceDescription.Identifier),
                      ("Properties", props)])],
         [],
         [addStrParam [("TypeName", .str tn), ("Identifier", .str idf)]
            "RoleArn" ra]⟩) ∧
    (pyLoads (resp.ResourceDescription.Properties.getD "\x7b\x7d") = .error e →
      get_resource (some ()) tn idf ra (.ok resp) =
        ⟨errorResult ("Error getting resource: " ++ e),
         ["Error getting resource: " ++ e],
         [addStrParam [("TypeName", .str tn), ("Identifier", .str idf)]
            "RoleArn" ra]⟩) := by
  constructor
  · intro h
    simp only [get_resource, cloudControlCall, h]
  · intro h
    simp only [get_resource, cloudControlCall, h]

/-- **C3, witness**: a concrete parse success (`'{"a": 1}'`) and a concrete
parse failure (`'oops'`). -/
theorem get_resource_properties_parse_witness :
    get_resource (some ()) "T" "I" none
        (.ok ⟨some "T", ⟨some "I", some "\x7b\"a\": 1\x7d"⟩⟩) =
      ⟨.obj [("TypeName", optStrJson (some "T")),
             ("ResourceDescription",
              .obj [("Identifier", optStrJson (some "I")),
                    ("Properties", .obj [("a", .int 1)])])],
       [],
       [addStrParam [("TypeName", .str "T"), ("Identifier", .str "I")]
          "RoleArn" none]⟩ ∧
    get_resource (some ()) "T" "I" none
        (.ok ⟨some "T", ⟨some "I", some "oops"⟩⟩) =
      ⟨errorResult ("Error getting resource: " ++ "Expecting value"),
       ["Error getting resource: " ++ "Expecting value"],
       [addStrParam [("TypeName", .str "T"), ("Identifier", .str "I")]
          "RoleArn" none]⟩ :=
  ⟨(get_resource_properties_parse "T" "I" none
      ⟨some "T", ⟨some "I", some "\x7b\"a\": 1\x7d"⟩⟩
      (.obj [("a", .int 1)]) "Expecting value").1 (by rfl),
   (get_resource_properties_parse "T" "I" none
      ⟨some "T", ⟨some "I", some "oops"⟩⟩
      (.obj [("a", .int 1)]) "Expecting value").2 (by rfl)⟩

/-! ### C4: `list_resources` degrades malformed items individually -/

/-- **C4.**  On a successful `list_resources` call the result's
`ResourceDescriptions` has exactly one normalized entry per remote
descriptor (all `N` are kept, in order); a descriptor whose `Properties`
text fails to parse degrades to `Properties = {}` while every parsing
descriptor carries its parsed object; and the call as a whole succeeds —
the result carries no top-level `'error'` key. -/
theorem list_resources_degrades_malformed_items (tn : String)
    (rm : Option ObjOrText) (ra nt : Option String)
    (resp : ListResourcesResponse) (r : ResourceDescriptionFields)
    (p : Json) (e : String) :
    (list_resources (some ()) tn rm ra nt (.ok resp)).result.getKey
        "ResourceDescriptions" =
      some (.arr (resp.ResourceDescriptions.map normalizeDescriptor)) ∧
    (resp.ResourceDescriptions.map normalizeDescriptor).length =
      resp.ResourceDescriptions.length ∧
    (pyLoads (r.Properties.getD "\x7b\x7d") = .error e →
      normalizeDescriptor r =
        .obj [("Identifier", optStrJson r.Identifier),
              ("Properties", .obj [])]) ∧
    (pyLoads (r.Properties.getD "\x7b\x7d") = .ok p →
      normalizeDescriptor r =
        .obj [("Identifier", optStrJson r.Identifier),
              ("Properties", p)]) ∧
    (list_resources (some ()) tn rm ra nt (.ok resp)).result.getKey "error" =
      none := by
  refine ⟨rfl, resp.ResourceDescriptions.length_map _, ?_, ?_, ?_⟩
  · intro h
    simp only [normalizeDescriptor, h]
  · intro h
    simp only [normalizeDescriptor, h]
  · obtain ⟨tn0, ds0, nt0⟩ := resp
    cases nt0 with
    | none => rfl
    | some t => rfl

/-- **C4, witness**: a three-descriptor response whose middle descriptor has
malformed `Properties` text keeps all three entries, with `{}` for the
malformed one and the parsed objects for the other two. -/
theorem list_resources_degrades_malformed_items_witness :
    (list_resources (some ()) "T" none none none
        (.ok ⟨some "T",
              [⟨some "a", some "\x7b\"v\": 1\x7d"⟩,
               ⟨some "b", some "nonsense"⟩,
               ⟨some "c", none⟩], none⟩)).result.getKey
        "ResourceDescriptions" =
      some (.arr
        [.obj [("Identifier", optStrJson (some "a")),
               ("Properties", .obj [("v", .int 1)])],
         .obj [("Identifier", optStrJson (some "b")),
               ("Properties", .obj [])],
         .obj [("Identifier", optStrJson (some "c")),
               ("Properties", .obj [])]]) ∧
    normalizeDescriptor ⟨some "b", some "nonsense"⟩ =
      .obj [("Identifier", optStrJson (some "b")), ("Properties", .obj [])] ∧
    normalizeDescriptor ⟨some "a", some "\x7b\"v\": 1\x7d"⟩ =
      .obj [("Identifier", optStrJson (some "a")),
            ("Properties", .obj [("v", .int 1)])] ∧
    (list_resources (some ()) "T" none none none
        (.ok ⟨some "T",
              [⟨some "a", some "\x7b\"v\": 1\x7d"⟩,
               ⟨some "b", some "nonsense"⟩,
               ⟨some "c", none⟩], none⟩)).result.getKey "error" = none := by
  have h := list_resources_degrades_malformed_items "T" none none none
    ⟨some "T",
     [⟨some "a", some "\x7b\"v\": 1\x7d"⟩,
      ⟨some "b", some "nonsense"⟩,
      ⟨some "c", none⟩], none⟩
    ⟨some "b", some "nonsense"⟩ (.obj [("v", .int 1)]) "Expecting value"
  refine ⟨?_, h.2.2.1 (by rfl), ?_, h.2.2.2.2⟩
  · exact h.1
  · exact (list_resources_degrades_malformed_items "T" none none none
      ⟨some "T", [], none⟩ ⟨some "a", some "\x7b\"v\": 1\x7d"⟩
      (.obj [("v", .int 1)]) "x").2.2.2.1 (by rfl)

/-! ### Towards C5: the `dumps`/`loads` round trip

`create_resource` serializes a structured `desired_state` with `json.dumps`
and C5 claims the text parses back to the original object.  The lemmas
below invert each piece of the encoder, cumulating in
`pyLoads_pyDumps`.
-/

/-- A value as it can live in a Python process: every object, at any depth,
has pairwise-distinct keys (`json.loads` and MCP argument decoding can
produce nothing else). -/
def keyAbsent (k : String) : List (String × Json) → Bool
  | [] => true
  | (k0, _) :: tl => !(k0 == k) && keyAbsent k tl

/-- Pairwise-distinct keys of one object level. -/
def keysDistinct : List (String × Json) → Bool
  | [] => true
  | (k, _) :: tl => keyAbsent k tl && keysDistinct tl

mutual
/-- All object levels of a value have pairwise-distinct keys. -/
def pyWf : Json → Bool
  | .null => true
  | .bool _ => true
  | .int _ => true
  | .str _ => true
  | .arr items => pyWfList items
  | .obj members => keysDistinct members && pyWfPairs members
def pyWfList : List Json → Bool
  | [] => true
  | x :: xs => pyWf x && pyWfList xs
def pyWfPairs : List (String × Json) → Bool
  | [] => true
  | (_, v) :: ms => pyWf v && pyWfPairs ms
end

/-- A continuation that cannot extend a decimal literal: empty, or headed
by a non-digit.  (`,`, `]`, `}` and end of input all qualify; `.`/`e`
continuations would denote Python floats, which the embedding excludes.) -/
def nonDigitStart : List Char → Bool
  | [] => true
  | c :: _ => !isDigitChar c

/-! #### Character facts -/

theorem char_eq_of_toNat_eq {a b : Char} (h : a.toNat = b.toNat) : a = b := by
  apply Char.eq_of_val_eq
  apply UInt32.eq_of_val_eq
  apply Fin.eq_of_val_eq
  exact h

theorem char_ne_of_toNat_ne {a b : Char} (h : a.toNat ≠ b.toNat) : a ≠ b :=
  fun he => h (he ▸ rfl)

/-- Every `Char`'s code point is a valid scalar value: below `0x110000` and
outside the surrogate block. -/
theorem char_toNat_valid (c : Char) :
    c.toNat < 1114112 ∧ ¬ (55296 ≤ c.toNat ∧ c.toNat < 57344) := by
  have h := c.valid
  unfold UInt32.isValidChar Nat.isValidChar at h
  unfold Char.toNat
  rcases h with h | h <;> omega

/-- `hexCharValue` inverts `hexDigitChar` on `d < 16`. -/
theorem hexCharValue_hexDigitChar (d : Nat) (h : d < 16) :
    hexCharValue (hexDigitChar d) = some d := by
  interval_cases d <;> decide

/-- `hexQuad` inverts the four digits of a `\uXXXX` escape. -/
theorem hexQuad_uEscape (n : Nat) (h : n < 65536) :
    hexQuad (hexDigitChar (n / 4096 % 16)) (hexDigitChar (n / 256 % 16))
      (hexDigitChar (n / 16 % 16)) (hexDigitChar (n % 16)) = some n := by
  have h1 := hexCharValue_hexDigitChar (n / 4096 % 16) (Nat.mod_lt _ (by omega))
  have h2 := hexCharValue_hexDigitChar (n / 256 % 16) (Nat.mod_lt _ (by omega))
  have h3 := hexCharValue_hexDigitChar (n / 16 % 16) (Nat.mod_lt _ (by omega))
  have h4 := hexCharValue_hexDigitChar (n % 16) (Nat.mod_lt _ (by omega))
  simp only [hexQuad, h1, h2, h3, h4, Option.bind_eq_bind, Option.some_bind]
  congr 1
  omega

/-- The code point of `digitChar d` for `d < 10`. -/
theorem digitChar_toNat (d : Nat) (h : d < 10) : (digitChar d).toNat = 48 + d := by
  interval_cases d <;> decide

theorem isDigitChar_digitChar (d : Nat) (h : d < 10) :
    isDigitChar (digitChar d) = true := by
  interval_cases d <;> decide

/-! #### Decimal literal facts -/

theorem natChars_ne_nil (n : Nat) : natChars n ≠ [] := by
  unfold natChars
  split <;> simp

theorem natChars_all_digits (n : Nat) :
    ∀ c ∈ natChars n, isDigitChar c = true := by
  induction n using Nat.strongRecOn with
  | _ n ih =>
    unfold natChars
    split
    · intro c hc
      rw [List.mem_singleton] at hc
      subst hc
      exact isDigitChar_digitChar n (by omega)
    · intro c hc
      rw [List.mem_append] at hc
      rcases hc with hc | hc
      · exact ih (n / 10) (Nat.div_lt_self (by omega) (by omega)) c hc
      · rw [List.mem_singleton] at hc
        subst hc
        exact isDigitChar_digitChar (n % 10) (Nat.mod_lt _ (by omega))

/-- The leading digit of `n ≥ 1` is not `'0'`. -/
theorem natChars_head_ne_zero (n : Nat) :
    1 ≤ n → ∀ c t, natChars n = c :: t → c.toNat ≠ 48 := by
  induction n using Nat.strongRecOn with
  | _ n ih =>
    intro hn c t hct
    rw [natChars.eq_def] at hct
    by_cases h10 : n < 10
    · rw [if_pos h10] at hct
      obtain ⟨hc, -⟩ := List.cons.inj hct
      subst hc
      rw [digitChar_toNat n (by omega)]
      omega
    · rw [if_neg h10] at hct
      obtain ⟨c0, t0, h0⟩ := List.exists_cons_of_ne_nil (natChars_ne_nil (n / 10))
      rw [h0, List.cons_append] at hct
      obtain ⟨hc, -⟩ := List.cons.inj hct
      subst hc
      exact ih (n / 10) (Nat.div_lt_self (by omega) (by omega))
        ((Nat.one_le_div_iff (by omega)).mpr (by omega)) c0 t0 h0

/-- `digitRun` stops immediately on a `nonDigitStart` continuation. -/
theorem digitRun_stop (cs : List Char) (h : nonDigitStart cs = true) :
    digitRun cs = ([], cs) := by
  cases cs with
  | nil => rfl
  | cons c tl =>
      simp only [nonDigitStart, Bool.not_eq_true'] at h
      simp [digitRun, h]

/-- `digitRun` consumes exactly a digit run followed by a non-digit. -/
theorem digitRun_append (ds rest : List Char)
    (hds : ∀ c ∈ ds, isDigitChar c = true) (hrest : nonDigitStart rest = true) :
    digitRun (ds ++ rest) = (ds, rest) := by
  induction ds with
  | nil => simpa using digitRun_stop rest hrest
  | cons c tl ih =>
      have hc := hds c (by simp)
      have htl := ih (fun x hx => hds x (by simp [hx]))
      simp [digitRun, hc, htl]

theorem digitsValue_natChars (n : Nat) : digitsValue (natChars n) = n := by
  induction n using Nat.strongRecOn with
  | _ n ih =>
    unfold natChars
    split
    · simp only [digitsValue, List.foldl_cons, List.foldl_nil]
      rw [digitChar_toNat n (by omega)]
      omega
    · simp only [digitsValue, List.foldl_append, List.foldl_cons, List.foldl_nil]
      have hv := ih (n / 10) (Nat.div_lt_self (by omega) (by omega))
      simp only [digitsValue] at hv
      rw [hv, digitChar_toNat (n % 10) (Nat.mod_lt _ (by omega))]
      omega

/-- `matchUInt` inverts `natChars` whenever the continuation cannot extend
the digit run. -/
theorem matchUInt_natChars (n : Nat) (rest : List Char)
    (hrest : nonDigitStart rest = true) :
    matchUInt (natChars n ++ rest) = some (n, rest) := by
  obtain ⟨c0, t0, h0⟩ := List.exists_cons_of_ne_nil (natChars_ne_nil n)
  have hdig : isDigitChar c0 = true :=
    natChars_all_digits n c0 (by rw [h0]; exact List.mem_cons_self ..)
  rw [h0, List.cons_append]
  by_cases hz : c0.toNat = 48
  · -- leading digit '0': only `natChars 0 = ['0']` can produce it
    have hn0 : n = 0 := by
      by_contra hne
      exact natChars_head_ne_zero n (by omega) c0 t0 h0 hz
    subst hn0
    have h00 : natChars 0 = [digitChar 0] := by unfold natChars; simp
    rw [h00] at h0
    obtain ⟨hc, ht⟩ := List.cons.inj h0
    subst hc
    subst ht
    rfl
  · have ht0 : ∀ c ∈ t0, isDigitChar c = true := by
      intro c hc
      exact natChars_all_digits n c (by rw [h0]; exact List.mem_cons_of_mem _ hc)
    simp only [matchUInt, hz, if_false, hdig, if_true,
      digitRun_append t0 rest ht0 hrest]
    rw [show digitsValue (c0 :: t0) = n from by rw [← h0, digitsValue_natChars]]

/-! #### String escape facts -/

/-- One-step unfolding of `scanStringBody` at a `\uXXXX` escape
(definitional). -/
theorem scanStringBody_u_step (fuel : Nat) (acc : List Char) (a b d e : Char)
    (rest2 : List Char) :
    scanStringBody (fuel + 1) acc ('\\' :: 'u' :: a :: b :: d :: e :: rest2) =
      (match hexQuad a b d e with
       | none => .error "Invalid \\uXXXX escape"
       | some n =>
           if 55296 ≤ n ∧ n ≤ 56319 then
             match rest2 with
             | '\\' :: 'u' :: a2 :: b2 :: d2 :: e2 :: rest3 =>
                 (match hexQuad a2 b2 d2 e2 with
                  | none => .error "Invalid \\uXXXX escape"
                  | some m =>
                      if 56320 ≤ m ∧ m ≤ 57343 then
                        scanStringBody fuel
                          (Char.ofNat
                            (65536 + (n - 55296) * 1024 + (m - 56320)) :: acc)
                          rest3
                      else .error "Unpaired high surrogate")
             | _ => .error "Unpaired high surrogate"
           else if 56320 ≤ n ∧ n ≤ 57343 then .error "Unpaired low surrogate"
           else scanStringBody fuel (Char.ofNat n :: acc) rest2) := rfl

/-- Scanning one escaped character undoes `escapeAsciiChar` (one unit of
fuel per source character). -/
theorem scanStringBody_escape (fuel : Nat) (c : Char) (acc rest : List Char) :
    scanStringBody (fuel + 1) acc (escapeAsciiChar c ++ rest) =
      scanStringBody fuel (c :: acc) rest := by
  have hval := char_toNat_valid c
  by_cases h92 : c.toNat = 92
  · have hc : c = '\\' := char_eq_of_toNat_eq (by rw [h92]; rfl)
    subst hc
    rfl
  by_cases h34 : c.toNat = 34
  · have hc : c = '"' := char_eq_of_toNat_eq (by rw [h34]; rfl)
    subst hc
    rfl
  by_cases h8 : c.toNat = 8
  · have hc : c = '\x08' := char_eq_of_toNat_eq (by rw [h8]; rfl)
    subst hc
    rfl
  by_cases h12 : c.toNat = 12
  · have hc : c = '\x0c' := char_eq_of_toNat_eq (by rw [h12]; rfl)
    subst hc
    rfl
  by_cases h10 : c.toNat = 10
  · have hc : c = '\n' := char_eq_of_toNat_eq (by rw [h10]; rfl)
    subst hc
    rfl
  by_cases h13 : c.toNat = 13
  · have hc : c = '\r' := char_eq_of_toNat_eq (by rw [h13]; rfl)
    subst hc
    rfl
  by_cases h9 : c.toNat = 9
  · have hc : c = '\t' := char_eq_of_toNat_eq (by rw [h9]; rfl)
    subst hc
    rfl
  have hq : ¬ c = '"' :=
    char_ne_of_toNat_ne (by rw [show ('"' : Char).toNat = 34 from rfl]; omega)
  have hb : ¬ c = '\\' :=
    char_ne_of_toNat_ne (by rw [show ('\\' : Char).toNat = 92 from rfl]; omega)
  rw [escapeAsciiChar.eq_def,
      if_neg h92, if_neg h34, if_neg h8, if_neg h12, if_neg h10, if_neg h13,
      if_neg h9]
  by_cases hplain : 32 ≤ c.toNat ∧ c.toNat < 127
  · rw [if_pos hplain, List.cons_append, List.nil_append]
    simp only [scanStringBody, if_neg hq, if_neg hb,
      if_neg (by omega : ¬ c.toNat < 32)]
  rw [if_neg hplain]
  by_cases hlt : c.toNat < 65536
  · rw [if_pos hlt]
    simp only [uEscape, List.cons_append, List.nil_append]
    rw [scanStringBody_u_step, hexQuad_uEscape c.toNat hlt]
    simp only [if_neg (show ¬ (55296 ≤ c.toNat ∧ c.toNat ≤ 56319) by omega),
      if_neg (show ¬ (56320 ≤ c.toNat ∧ c.toNat ≤ 57343) by omega),
      Char.ofNat_toNat]
  · rw [if_neg hlt]
    have hmod := Nat.mod_lt (c.toNat - 65536) (show 0 < 1024 by omega)
    simp only [uEscape, List.cons_append, List.nil_append]
    rw [scanStringBody_u_step,
      hexQuad_uEscape (55296 + (c.toNat - 65536) / 1024) (by omega)]
    simp only [if_pos (show 55296 ≤ 55296 + (c.toNat - 65536) / 1024 ∧
        55296 + (c.toNat - 65536) / 1024 ≤ 56319 by omega)]
    rw [hexQuad_uEscape (56320 + (c.toNat - 65536) % 1024) (by omega)]
    simp only [if_pos (show 56320 ≤ 56320 + (c.toNat - 65536) % 1024 ∧
        56320 + (c.toNat - 65536) % 1024 ≤ 57343 by omega)]
    have harith : 65536 + (55296 + (c.toNat - 65536) / 1024 - 55296) * 1024 +
        (56320 + (c.toNat - 65536) % 1024 - 56320) = c.toNat := by omega
    rw [harith, Char.ofNat_toNat]

/-- Scanning an escaped character run stops exactly at the closing quote. -/
theorem scanStringBody_encoded (cs : List Char) :
    ∀ (fuel : Nat) (acc rest : List Char), cs.length < fuel →
      scanStringBody fuel acc (cs.flatMap escapeAsciiChar ++ '"' :: rest) =
        .ok (String.mk (acc.reverse ++ cs), rest) := by
  induction cs with
  | nil =>
      intro fuel acc rest hf
      cases fuel with
      | zero => omega
      | succ f =>
          simp only [List.flatMap_nil, List.nil_append, List.append_nil]
          rfl
  | cons c tl ih =>
      intro fuel acc rest hf
      cases fuel with
      | zero => omega
      | succ f =>
          rw [List.flatMap_cons, List.append_assoc, scanStringBody_escape,
            ih f (c :: acc) rest (by simp only [List.length_cons] at hf; omega)]
          simp

/-- Every character escapes to at least one character. -/
theorem escapeAsciiChar_length_pos (c : Char) : 1 ≤ (escapeAsciiChar c).length := by
  rw [escapeAsciiChar.eq_def]
  repeat' split
  all_goals simp [uEscape]

theorem length_le_flatMap_escape (cs : List Char) :
    cs.length ≤ (cs.flatMap escapeAsciiChar).length := by
  induction cs with
  | nil => simp
  | cons c tl ih =>
      rw [List.flatMap_cons, List.length_append, List.length_cons]
      have := escapeAsciiChar_length_pos c
      omega

/-- The string codec round trip: `scanString` inverts the body of
`encodeString`. -/
theorem scanString_encoded (s : String) (rest : List Char) :
    scanString (s.data.flatMap escapeAsciiChar ++ '"' :: rest) = .ok (s, rest) := by
  unfold scanString
  rw [scanStringBody_encoded s.data _ [] rest
    (by
      have h1 := length_le_flatMap_escape s.data
      simp only [List.length_append, List.length_cons]
      omega)]
  rfl

/-! #### Rendered values never start with whitespace, a digit-extender, or
a close delimiter -/

theorem skipJsonWs_not_ws {c : Char} (tl : List Char) (h : isJsonWs c = false) :
    skipJsonWs (c :: tl) = c :: tl := by
  simp [skipJsonWs, h]

/-- The head-character facts needed to route a decimal literal through
`scanOnce`'s dispatch. -/
theorem digit_head_facts {c : Char} (h : isDigitChar c = true) :
    ¬ c = '"' ∧ ¬ c = '\x7b' ∧ ¬ c = '[' ∧ ¬ c = 'n' ∧ ¬ c = 't' ∧
    ¬ c = 'f' ∧ isJsonWs c = false ∧ ¬ c = ']' ∧ ¬ c = '\x7d' ∧ ¬ c = ',' := by
  simp only [isDigitChar, Bool.and_eq_true, decide_eq_true_eq] at h
  refine ⟨char_ne_of_toNat_ne (by rw [show ('"' : Char).toNat = 34 from rfl]; omega),
    char_ne_of_toNat_ne (by rw [show ('\x7b' : Char).toNat = 123 from rfl]; omega),
    char_ne_of_toNat_ne (by rw [show ('[' : Char).toNat = 91 from rfl]; omega),
    char_ne_of_toNat_ne (by rw [show ('n' : Char).toNat = 110 from rfl]; omega),
    char_ne_of_toNat_ne (by rw [show ('t' : Char).toNat = 116 from rfl]; omega),
    char_ne_of_toNat_ne (by rw [show ('f' : Char).toNat = 102 from rfl]; omega),
    by simp only [isJsonWs, Bool.or_eq_false_iff, decide_eq_false_iff_not]; omega,
    char_ne_of_toNat_ne (by rw [show (']' : Char).toNat = 93 from rfl]; omega),
    char_ne_of_toNat_ne (by rw [show ('\x7d' : Char).toNat = 125 from rfl]; omega),
    char_ne_of_toNat_ne (by rw [show (',' : Char).toNat = 44 from rfl]; omega)⟩

/-- A character fit to start an encoded value: not whitespace and not one
of the `]`/`}`/`,` delimiters that close a surrounding construct. -/
def fitsValueStart (c : Char) : Prop :=
  isJsonWs c = false ∧ ¬ c = ']' ∧ ¬ c = '\x7d' ∧ ¬ c = ','

/-- Every encoded value starts with a character fit to start a value. -/
theorem encodeVal_head (j : Json) :
    ∃ c t, encodeVal j = c :: t ∧ fitsValueStart c := by
  cases j with
  | null => exact ⟨'n', _, rfl, by unfold fitsValueStart; decide⟩
  | bool b =>
      cases b with
      | true => exact ⟨'t', _, rfl, by unfold fitsValueStart; decide⟩
      | false => exact ⟨'f', _, rfl, by unfold fitsValueStart; decide⟩
  | str s => exact ⟨'"', _, rfl, by unfold fitsValueStart; decide⟩
  | arr items => exact ⟨'[', _, rfl, by unfold fitsValueStart; decide⟩
  | obj members => exact ⟨'\x7b', _, rfl, by unfold fitsValueStart; decide⟩
  | int n =>
      by_cases hn : n < 0
      · refine ⟨'-', natChars n.natAbs, ?_, by unfold fitsValueStart; decide⟩
        simp [encodeVal, intChars, hn]
      · obtain ⟨c0, t0, h0⟩ := List.exists_cons_of_ne_nil (natChars_ne_nil n.natAbs)
        have hdig : isDigitChar c0 = true :=
          natChars_all_digits n.natAbs c0 (by rw [h0]; exact List.mem_cons_self ..)
        obtain ⟨-, -, -, -, -, -, hws, hbr, hbc, hcm⟩ := digit_head_facts hdig
        refine ⟨c0, t0, ?_, hws, hbr, hbc, hcm⟩
        simp [encodeVal, intChars, hn, h0]

theorem skipJsonWs_encodeVal (j : Json) (x : List Char) :
    skipJsonWs (encodeVal j ++ x) = encodeVal j ++ x := by
  obtain ⟨c, t, henc, hfit⟩ := encodeVal_head j
  rw [henc, List.cons_append, skipJsonWs_not_ws _ hfit.1]

/-- `matchInt` inverts `intChars`. -/
theorem matchInt_intChars (n : Int) (rest : List Char)
    (hrest : nonDigitStart rest = true) :
    matchInt (intChars n ++ rest) = some (n, rest) := by
  by_cases hn : n < 0
  · have harg : intChars n ++ rest = '-' :: (natChars n.natAbs ++ rest) := by
      simp [intChars, hn]
    rw [harg]
    simp only [matchInt, matchUInt_natChars n.natAbs rest hrest, Option.map_some']
    have hv : -(n.natAbs : Int) = n := by omega
    rw [hv]
  · obtain ⟨c0, t0, h0⟩ := List.exists_cons_of_ne_nil (natChars_ne_nil n.natAbs)
    have hdig : isDigitChar c0 = true :=
      natChars_all_digits n.natAbs c0 (by rw [h0]; exact List.mem_cons_self ..)
    have hc45 : c0.toNat ≠ 45 := by
      simp only [isDigitChar, Bool.and_eq_true, decide_eq_true_eq] at hdig
      omega
    have harg : intChars n ++ rest = c0 :: (t0 ++ rest) := by
      simp [intChars, hn, h0]
    rw [harg]
    rw [matchInt.eq_def]
    split
    · rename_i heq
      obtain ⟨he, -⟩ := List.cons.inj heq
      exact absurd (congrArg Char.toNat he) hc45
    · rw [show c0 :: (t0 ++ rest) = natChars n.natAbs ++ rest from by
        rw [h0, List.cons_append]]
      rw [matchUInt_natChars n.natAbs rest hrest]
      simp only [Option.map_some']
      have hv : (n.natAbs : Int) = n := by omega
      rw [hv]

/-- `scanOnce` routes a rendered integer literal through `matchInt`. -/
theorem scanOnce_int (fuel : Nat) (n : Int) (rest : List Char)
    (hrest : nonDigitStart rest = true) :
    scanOnce (fuel + 1) (intChars n ++ rest) = .ok (.int n, rest) := by
  by_cases hn : n < 0
  · have harg : intChars n ++ rest = '-' :: (natChars n.natAbs ++ rest) := by
      simp [intChars, hn]
    rw [harg]
    simp only [scanOnce]
    rw [if_neg (by decide : ¬ ('-' : Char) = '"'),
        if_neg (by decide : ¬ ('-' : Char) = '\x7b'),
        if_neg (by decide : ¬ ('-' : Char) = '['),
        if_neg (by decide : ¬ ('-' : Char) = 'n'),
        if_neg (by decide : ¬ ('-' : Char) = 't'),
        if_neg (by decide : ¬ ('-' : Char) = 'f')]
    rw [if_pos (show (decide True || isDigitChar '-') = true from by decide),
        ← harg, matchInt_intChars n rest hrest]
  · obtain ⟨c0, t0, h0⟩ := List.exists_cons_of_ne_nil (natChars_ne_nil n.natAbs)
    have hdig : isDigitChar c0 = true :=
      natChars_all_digits n.natAbs c0 (by rw [h0]; exact List.mem_cons_self ..)
    obtain ⟨hq, h7b, h91, hnn, htt, hff, -, -, -, -⟩ := digit_head_facts hdig
    have harg : intChars n ++ rest = c0 :: (t0 ++ rest) := by
      simp [intChars, hn, h0]
    rw [harg]
    simp only [scanOnce]
    rw [if_neg hq, if_neg h7b, if_neg h91, if_neg hnn, if_neg htt, if_neg hff,
        if_pos (by rw [hdig]; simp : (decide (c0 = '-') || isDigitChar c0) = true),
        ← harg, matchInt_intChars n rest hrest]

/-! #### Python dict building from parsed pairs -/

theorem keyAbsent_iff (k : String) (ps : List (String × Json)) :
    keyAbsent k ps = true ↔ ∀ p ∈ ps, ¬ p.1 = k := by
  induction ps with
  | nil => simp [keyAbsent]
  | cons p tl ih =>
      obtain ⟨k0, v0⟩ := p
      simp [keyAbsent, ih]

theorem keyAbsent_append (k : String) (ps qs : List (String × Json)) :
    keyAbsent k (ps ++ qs) = (keyAbsent k ps && keyAbsent k qs) := by
  induction ps with
  | nil => simp [keyAbsent]
  | cons p tl ih =>
      obtain ⟨k0, v0⟩ := p
      simp [keyAbsent, ih, Bool.and_assoc]

theorem dictSetItem_absent (ps : List (String × Json)) (k : String) (v : Json)
    (h : keyAbsent k ps = true) : dictSetItem ps k v = ps ++ [(k, v)] := by
  induction ps with
  | nil => rfl
  | cons p tl ih =>
      obtain ⟨k0, v0⟩ := p
      simp only [keyAbsent, Bool.and_eq_true, Bool.not_eq_true',
        beq_eq_false_iff_ne] at h
      simp only [dictSetItem, if_neg h.1, List.cons_append, ih h.2]

theorem dictFold_append (ps : List (String × Json)) :
    ∀ acc, keysDistinct ps = true → (∀ p ∈ ps, keyAbsent p.1 acc = true) →
      List.foldl (fun d kv => dictSetItem d kv.1 kv.2) acc ps = acc ++ ps := by
  induction ps with
  | nil =>
      intro acc _ _
      simp
  | cons p tl ih =>
      obtain ⟨k, v⟩ := p
      intro acc h1 h2
      simp only [keysDistinct, Bool.and_eq_true] at h1
      rw [List.foldl_cons]
      rw [show dictSetItem acc (k, v).1 (k, v).2 = acc ++ [(k, v)] from
        dictSetItem_absent acc k v (h2 (k, v) (List.mem_cons_self ..))]
      rw [ih (acc ++ [(k, v)]) h1.2 ?_]
      · simp
      · intro p hp
        rw [keyAbsent_append]
        have h2p := h2 p (List.mem_cons_of_mem _ hp)
        have hkp : ¬ p.1 = k := (keyAbsent_iff k tl).mp h1.1 p hp
        simp only [h2p, Bool.true_and, keyAbsent,
          beq_eq_false_iff_ne, Bool.and_true]
        simp [Ne.symm hkp]

/-- `dict(pairs)` is the identity on a pair list with distinct keys. -/
theorem dictOfPairs_self (ps : List (String × Json))
    (h : keysDistinct ps = true) : dictOfPairs ps = ps := by
  unfold dictOfPairs
  rw [dictFold_append ps [] h (fun p _ => rfl)]
  simp

/-! #### One-step unfoldings of the scanner (definitional) -/

theorem itemsTail_cons (y : Json) (ys : List Json) :
    itemsTail (y :: ys) = ',' :: ' ' :: encodeItems (y :: ys) := rfl

theorem pairsTail_cons (k2 : String) (v2 : Json) (ms2 : List (String × Json)) :
    pairsTail ((k2, v2) :: ms2) = ',' :: ' ' :: encodePairs ((k2, v2) :: ms2) := rfl

theorem scanOnce_quote_step (fuel : Nat) (tl : List Char) :
    scanOnce (fuel + 1) ('"' :: tl) =
      (match scanString tl with
       | .ok (s, rest) => .ok (.str s, rest)
       | .error e => .error e) := rfl

theorem scanOnce_lbracket_step (fuel : Nat) (tl : List Char) :
    scanOnce (fuel + 1) ('[' :: tl) =
      (match skipJsonWs tl with
       | ']' :: rest => .ok (.arr [], rest)
       | cs1 =>
           match arrayLoop fuel [] cs1 with
           | .ok (xs, rest2) => .ok (.arr xs, rest2)
           | .error e => .error e) := rfl

theorem scanOnce_lbrace_step (fuel : Nat) (tl : List Char) :
    scanOnce (fuel + 1) ('\x7b' :: tl) =
      (match skipJsonWs tl with
       | '\x7d' :: rest => .ok (.obj [], rest)
       | '"' :: rest =>
           (match objectLoop fuel [] rest with
            | .ok (ps, rest2) => .ok (.obj (dictOfPairs ps), rest2)
            | .error e => .error e)
       | _ => .error "Expecting property name enclosed in double quotes") := rfl

theorem arrayLoop_step (fuel : Nat) (acc : List Json) (cs : List Char) :
    arrayLoop (fuel + 1) acc cs =
      (match scanOnce fuel cs with
       | .error e => .error e
       | .ok (v, rest) =>
           match skipJsonWs rest with
           | ',' :: rest2 => arrayLoop fuel (acc ++ [v]) (skipJsonWs rest2)
           | ']' :: rest2 => .ok (acc ++ [v], rest2)
           | _ => .error "Expecting ',' delimiter") := rfl

theorem objectLoop_step (fuel : Nat) (acc : List (String × Json)) (cs : List Char) :
    objectLoop (fuel + 1) acc cs =
      (match scanString cs with
       | .error e => .error e
       | .ok (key, rest) =>
           match skipJsonWs rest with
           | ':' :: rest2 =>
               (match scanOnce fuel (skipJsonWs rest2) with
                | .error e => .error e
                | .ok (v, rest3) =>
                    match skipJsonWs rest3 with
                    | ',' :: rest4 =>
                        (match skipJsonWs rest4 with
                         | '"' :: rest5 => objectLoop fuel (acc ++ [(key, v)]) rest5
                         | _ =>
                             .error "Expecting property name enclosed in double quotes")
                    | '\x7d' :: rest4 => .ok (acc ++ [(key, v)], rest4)
                    | _ => .error "Expecting ',' delimiter")
           | _ => .error "Expecting ':' delimiter") := rfl

/-- The `[` branch of `scanOnce` wraps `arrayLoop` whenever the element
text does not start with `]`. -/
theorem scanOnce_arr_branch (fuel : Nat) (c : Char) (t : List Char)
    (hws : isJsonWs c = false) (hc : ¬ c = ']') :
    scanOnce (fuel + 1) ('[' :: (c :: t)) =
      (match arrayLoop fuel [] (c :: t) with
       | .ok (xs, rest2) => .ok (.arr xs, rest2)
       | .error e => .error e) := by
  rw [scanOnce_lbracket_step, skipJsonWs_not_ws t hws]
  split
  · rename_i heq
    obtain ⟨hce, -⟩ := List.cons.inj heq
    exact absurd hce hc
  · rfl

/-! #### The value/array/object round trip -/

mutual
theorem rt_scan : ∀ (j : Json) (fuel : Nat) (rest : List Char),
    pyWf j = true → (encodeVal j).length < fuel → nonDigitStart rest = true →
    scanOnce fuel (encodeVal j ++ rest) = .ok (j, rest)
  | .null, fuel, rest, _, hf, _ => by
      cases fuel with
      | zero => simp [encodeVal] at hf
      | succ f => rfl
  | .bool true, fuel, rest, _, hf, _ => by
      cases fuel with
      | zero => simp [encodeVal] at hf
      | succ f => rfl
  | .bool false, fuel, rest, _, hf, _ => by
      cases fuel with
      | zero => simp [encodeVal] at hf
      | succ f => rfl
  | .int n, fuel, rest, _, hf, hrest => by
      cases fuel with
      | zero => omega
      | succ f => exact scanOnce_int f n rest hrest
  | .str s, fuel, rest, _, hf, _ => by
      cases fuel with
      | zero => omega
      | succ f =>
          have harg : encodeVal (.str s) ++ rest =
              '"' :: (s.data.flatMap escapeAsciiChar ++ '"' :: rest) := by
            simp [encodeVal, encodeString]
          rw [harg, scanOnce_quote_step, scanString_encoded]
  | .arr [], fuel, rest, _, hf, _ => by
      cases fuel with
      | zero => omega
      | succ f => rfl
  | .arr (x :: xs), fuel, rest, hwf, hf, _ => by
      cases fuel with
      | zero => omega
      | succ f =>
          obtain ⟨c, t, henc, ⟨hws, hbr, -, -⟩⟩ := encodeVal_head x
          have harg : encodeVal (.arr (x :: xs)) ++ rest =
              '[' :: (c :: (t ++ itemsTail xs ++ ']' :: rest)) := by
            simp [encodeVal, encodeItems, henc]
          have hwf' : pyWfList (x :: xs) = true := by
            simpa [pyWf] using hwf
          have hf' : (encodeItems (x :: xs)).length + 1 < f := by
            simp only [encodeVal, List.length_cons, List.length_append] at hf
            omega
          have key := rt_arrayLoop x xs f [] rest hwf' hf'
          rw [show encodeItems (x :: xs) ++ ']' :: rest =
              c :: (t ++ itemsTail xs ++ ']' :: rest) from by
            simp [encodeItems, henc]] at key
          rw [harg, scanOnce_arr_branch f c _ hws hbr, key]
          simp
  | .obj [], fuel, rest, _, hf, _ => by
      cases fuel with
      | zero => omega
      | succ f => rfl
  | .obj ((k, v) :: ms), fuel, rest, hwf, hf, _ => by
      cases fuel with
      | zero => omega
      | succ f =>
          simp only [pyWf, Bool.and_eq_true] at hwf
          have hwf' : pyWfPairs ((k, v) :: ms) = true := hwf.2
          have hf' : (encodePairs ((k, v) :: ms)).length + 1 < f := by
            simp only [encodeVal, List.length_cons, List.length_append] at hf
            omega
          have harg : encodeVal (.obj ((k, v) :: ms)) ++ rest =
              '\x7b' :: ('"' :: (k.data.flatMap escapeAsciiChar ++
                '"' :: ':' :: ' ' :: (encodeVal v ++ (pairsTail ms ++ '\x7d' :: rest)))) := by
            simp [encodeVal, encodePairs, encodeString]
          rw [harg, scanOnce_lbrace_step]
          rw [show skipJsonWs ('"' :: (k.data.flatMap escapeAsciiChar ++
              '"' :: ':' :: ' ' :: (encodeVal v ++ (pairsTail ms ++ '\x7d' :: rest)))) =
              '"' :: (k.data.flatMap escapeAsciiChar ++
              '"' :: ':' :: ' ' :: (encodeVal v ++ (pairsTail ms ++ '\x7d' :: rest)))
            from skipJsonWs_not_ws _ (by decide)]
          show (match objectLoop f []
              (k.data.flatMap escapeAsciiChar ++
                '"' :: ':' :: ' ' :: (encodeVal v ++ (pairsTail ms ++ '\x7d' :: rest))) with
            | .ok (ps, rest2) => Except.ok (Json.obj (dictOfPairs ps), rest2)
            | .error e => Except.error e) = .ok (.obj ((k, v) :: ms), rest)
          rw [rt_objectLoop k v ms f [] rest hwf' hf']
          simp only [List.nil_append]
          rw [dictOfPairs_self _ hwf.1]
  termination_by j _ _ _ _ _ => sizeOf j
theorem rt_arrayLoop : ∀ (x : Json) (xs : List Json) (fuel : Nat)
    (acc : List Json) (rest : List Char),
    pyWfList (x :: xs) = true → (encodeItems (x :: xs)).length + 1 < fuel →
    arrayLoop fuel acc (encodeItems (x :: xs) ++ ']' :: rest) =
      .ok (acc ++ x :: xs, rest)
  | x, [], fuel, acc, rest, hwf, hf => by
      cases fuel with
      | zero => omega
      | succ f =>
          simp only [pyWfList, Bool.and_eq_true] at hwf
          have hfx : (encodeVal x).length < f := by
            simp only [encodeItems, itemsTail, List.length_append,
              List.length_nil] at hf
            omega
          have hv := rt_scan x f (']' :: rest) hwf.1 hfx rfl
          rw [show encodeItems (x :: []) ++ ']' :: rest =
              encodeVal x ++ ']' :: rest from by simp [encodeItems, itemsTail]]
          rw [arrayLoop_step, hv]
          simp [skipJsonWs, isJsonWs]
  | x, y :: ys, fuel, acc, rest, hwf, hf => by
      cases fuel with
      | zero => omega
      | succ f =>
          simp only [pyWfList, Bool.and_eq_true] at hwf
          have hlen : (encodeVal x).length + 2 + (encodeItems (y :: ys)).length + 1 <
              f + 1 := by
            simp only [encodeItems, itemsTail_cons, List.length_append,
              List.length_cons] at hf ⊢
            omega
          have hfx : (encodeVal x).length < f := by omega
          have hfy : (encodeItems (y :: ys)).length + 1 < f := by omega
          have hv := rt_scan x f
            (',' :: ' ' :: (encodeItems (y :: ys) ++ ']' :: rest)) hwf.1 hfx rfl
          rw [show encodeItems (x :: y :: ys) ++ ']' :: rest =
              encodeVal x ++ (',' :: ' ' :: (encodeItems (y :: ys) ++ ']' :: rest))
            from by simp [encodeItems, itemsTail_cons]]
          rw [arrayLoop_step, hv]
          show (match skipJsonWs (',' :: ' ' :: (encodeItems (y :: ys) ++ ']' :: rest)) with
            | ',' :: rest2 => arrayLoop f (acc ++ [x]) (skipJsonWs rest2)
            | ']' :: rest2 => Except.ok (acc ++ [x], rest2)
            | _ => Except.error "Expecting ',' delimiter") = .ok (acc ++ x :: y :: ys, rest)
          rw [skipJsonWs_not_ws _ (by decide)]
          show arrayLoop f (acc ++ [x])
              (skipJsonWs (' ' :: (encodeItems (y :: ys) ++ ']' :: rest))) =
            .ok (acc ++ x :: y :: ys, rest)
          rw [show skipJsonWs (' ' :: (encodeItems (y :: ys) ++ ']' :: rest)) =
              skipJsonWs (encodeItems (y :: ys) ++ ']' :: rest) from by
            simp [skipJsonWs, isJsonWs]]
          rw [show skipJsonWs (encodeItems (y :: ys) ++ ']' :: rest) =
              encodeItems (y :: ys) ++ ']' :: rest from by
            rw [show encodeItems (y :: ys) ++ ']' :: rest =
                encodeVal y ++ (itemsTail ys ++ ']' :: rest) from by
              simp [encodeItems]]
            exact skipJsonWs_encodeVal y _]
          rw [rt_arrayLoop y ys f (acc ++ [x]) rest (by simpa [pyWfList] using hwf.2) hfy]
          simp
  termination_by x xs _ _ _ _ _ => sizeOf x + sizeOf xs
theorem rt_objectLoop : ∀ (k : String) (v : Json) (ms : List (String × Json))
    (fuel : Nat) (acc : List (String × Json)) (rest : List Char),
    pyWfPairs ((k, v) :: ms) = true →
    (encodePairs ((k, v) :: ms)).length + 1 < fuel →
    objectLoop fuel acc (k.data.flatMap escapeAsciiChar ++
        '"' :: ':' :: ' ' :: (encodeVal v ++ (pairsTail ms ++ '\x7d' :: rest))) =
      .ok (acc ++ (k, v) :: ms, rest)
  | k, v, [], fuel, acc, rest, hwf, hf => by
      cases fuel with
      | zero => omega
      | succ f =>
          simp only [pyWfPairs, Bool.and_eq_true] at hwf
          have hfv : (encodeVal v).length < f := by
            simp only [encodePairs, pairsTail, encodeString, List.length_append,
              List.length_cons] at hf
            omega
          have hv := rt_scan v f ('\x7d' :: rest) hwf.1 hfv rfl
          rw [objectLoop_step, scanString_encoded]
          show (match skipJsonWs (':' :: ' ' :: (encodeVal v ++ (pairsTail [] ++ '\x7d' :: rest))) with
            | ':' :: rest2 =>
                (match scanOnce f (skipJsonWs rest2) with
                 | .error e => Except.error e
                 | .ok (v2, rest3) =>
                     match skipJsonWs rest3 with
                     | ',' :: rest4 =>
                         (match skipJsonWs rest4 with
                          | '"' :: rest5 => objectLoop f (acc ++ [(k, v2)]) rest5
                          | _ =>
                              Except.error
                                "Expecting property name enclosed in double quotes")
                     | '\x7d' :: rest4 => Except.ok (acc ++ [(k, v2)], rest4)
                     | _ => Except.error "Expecting ',' delimiter")
            | _ => Except.error "Expecting ':' delimiter") = .ok (acc ++ (k, v) :: [], rest)
          rw [skipJsonWs_not_ws _ (by decide)]
          show (match scanOnce f
              (skipJsonWs (' ' :: (encodeVal v ++ (pairsTail [] ++ '\x7d' :: rest)))) with
            | .error e => Except.error e
            | .ok (v2, rest3) =>
                match skipJsonWs rest3 with
                | ',' :: rest4 =>
                    (match skipJsonWs rest4 with
                     | '"' :: rest5 => objectLoop f (acc ++ [(k, v2)]) rest5
                     | _ =>
                         Except.error
                           "Expecting property name enclosed in double quotes")
                | '\x7d' :: rest4 => Except.ok (acc ++ [(k, v2)], rest4)
                | _ => Except.error "Expecting ',' delimiter") =
            .ok (acc ++ (k, v) :: [], rest)
          rw [show skipJsonWs (' ' :: (encodeVal v ++ (pairsTail [] ++ '\x7d' :: rest))) =
              skipJsonWs (encodeVal v ++ (pairsTail [] ++ '\x7d' :: rest)) from by
            simp [skipJsonWs, isJsonWs]]
          rw [skipJsonWs_encodeVal v _]
          rw [show pairsTail [] ++ '\x7d' :: rest = '\x7d' :: rest from by
            simp [pairsTail]]
          rw [hv]
          simp [skipJsonWs, isJsonWs]
  | k, v, (k2, v2) :: ms2, fuel, acc, rest, hwf, hf => by
      cases fuel with
      | zero => omega
      | succ f =>
          simp only [pyWfPairs, Bool.and_eq_true] at hwf
          simp only [encodePairs, pairsTail_cons, encodeString, List.length_append,
            List.length_cons] at hf
          have hfv : (encodeVal v).length < f := by omega
          have hfm : (encodePairs ((k2, v2) :: ms2)).length + 1 < f := by
            simp only [encodePairs, pairsTail_cons, encodeString, List.length_append,
              List.length_cons]
            omega
          have hv := rt_scan v f
            (',' :: ' ' :: (encodePairs ((k2, v2) :: ms2) ++ '\x7d' :: rest))
            hwf.1 hfv rfl
          rw [objectLoop_step, scanString_encoded]
          show (match skipJsonWs (':' :: ' ' ::
              (encodeVal v ++ (pairsTail ((k2, v2) :: ms2) ++ '\x7d' :: rest))) with
            | ':' :: rest2 =>
                (match scanOnce f (skipJsonWs rest2) with
                 | .error e => Except.error e
                 | .ok (w, rest3) =>
                     match skipJsonWs rest3 with
                     | ',' :: rest4 =>
                         (match skipJsonWs rest4 with
                          | '"' :: rest5 => objectLoop f (acc ++ [(k, w)]) rest5
                          | _ =>
                              Except.error
                                "Expecting property name enclosed in double quotes")
                     | '\x7d' :: rest4 => Except.ok (acc ++ [(k, w)], rest4)
                     | _ => Except.error "Expecting ',' delimiter")
            | _ => Except.error "Expecting ':' delimiter") =
            .ok (acc ++ (k, v) :: (k2, v2) :: ms2, rest)
          rw [skipJsonWs_not_ws _ (by decide)]
          show (match scanOnce f (skipJsonWs (' ' ::
              (encodeVal v ++ (pairsTail ((k2, v2) :: ms2) ++ '\x7d' :: rest)))) with
            | .error e => Except.error e
            | .ok (w, rest3) =>
                match skipJsonWs rest3 with
                | ',' :: rest4 =>
                    (match skipJsonWs rest4 with
                     | '"' :: rest5 => objectLoop f (acc ++ [(k, w)]) rest5
                     | _ =>
                         Except.error
                           "Expecting property name enclosed in double quotes")
                | '\x7d' :: rest4 => Except.ok (acc ++ [(k, w)], rest4)
                | _ => Except.error "Expecting ',' delimiter") =
            .ok (acc ++ (k, v) :: (k2, v2) :: ms2, rest)
          rw [show skipJsonWs (' ' ::
              (encodeVal v ++ (pairsTail ((k2, v2) :: ms2) ++ '\x7d' :: rest))) =
              skipJsonWs (encodeVal v ++ (pairsTail ((k2, v2) :: ms2) ++ '\x7d' :: rest))
            from by simp [skipJsonWs, isJsonWs]]
          rw [skipJsonWs_encodeVal v _]
          rw [show pairsTail ((k2, v2) :: ms2) ++ '\x7d' :: rest =
              ',' :: ' ' :: (encodePairs ((k2, v2) :: ms2) ++ '\x7d' :: rest) from by
            rw [pairsTail_cons]
            simp]
          rw [hv]
          show (match skipJsonWs (',' :: ' ' ::
              (encodePairs ((k2, v2) :: ms2) ++ '\x7d' :: rest)) with
            | ',' :: rest4 =>
                (match skipJsonWs rest4 with
                 | '"' :: rest5 => objectLoop f (acc ++ [(k, v)]) rest5
                 | _ =>
                     Except.error
                       "Expecting property name enclosed in double quotes")
            | '\x7d' :: rest4 => Except.ok (acc ++ [(k, v)], rest4)
            | _ => Except.error "Expecting ',' delimiter") =
            .ok (acc ++ (k, v) :: (k2, v2) :: ms2, rest)
          rw [show skipJsonWs (',' :: ' ' ::
              (encodePairs ((k2, v2) :: ms2) ++ '\x7d' :: rest)) =
              ',' :: ' ' :: (encodePairs ((k2, v2) :: ms2) ++ '\x7d' :: rest) from
            skipJsonWs_not_ws _ (by decide)]
          show (match skipJsonWs (' ' ::
              (encodePairs ((k2, v2) :: ms2) ++ '\x7d' :: rest)) with
            | '"' :: rest5 => objectLoop f (acc ++ [(k, v)]) rest5
            | _ => Except.error "Expecting property name enclosed in double quotes") =
            .ok (acc ++ (k, v) :: (k2, v2) :: ms2, rest)
          rw [show skipJsonWs (' ' :: (encodePairs ((k2, v2) :: ms2) ++ '\x7d' :: rest)) =
              skipJsonWs (encodePairs ((k2, v2) :: ms2) ++ '\x7d' :: rest) from by
            simp [skipJsonWs, isJsonWs]]
          rw [show skipJsonWs (encodePairs ((k2, v2) :: ms2) ++ '\x7d' :: rest) =
              '"' :: (k2.data.flatMap escapeAsciiChar ++
                '"' :: ':' :: ' ' :: (encodeVal v2 ++ (pairsTail ms2 ++ '\x7d' :: rest)))
            from by
            rw [show encodePairs ((k2, v2) :: ms2) ++ '\x7d' :: rest =
                '"' :: (k2.data.flatMap escapeAsciiChar ++
                  '"' :: ':' :: ' ' :: (encodeVal v2 ++ (pairsTail ms2 ++ '\x7d' :: rest)))
              from by simp [encodePairs, encodeString]]
            exact skipJsonWs_not_ws _ (by decide)]
          show objectLoop f (acc ++ [(k, v)])
              (k2.data.flatMap escapeAsciiChar ++
                '"' :: ':' :: ' ' :: (encodeVal v2 ++ (pairsTail ms2 ++ '\x7d' :: rest))) =
            .ok (acc ++ (k, v) :: (k2, v2) :: ms2, rest)
          rw [rt_objectLoop k2 v2 ms2 f (acc ++ [(k, v)]) rest
            (by simp [pyWfPairs, hwf.2.1, hwf.2.2]) hfm]
          simp
  termination_by k v ms _ _ _ _ _ => sizeOf v + sizeOf ms
end

/-- The Python JSON codec round trip: `json.loads(json.dumps(x)) == x` for
every value a Python process can hold (pairwise-distinct keys at every
object level). -/
theorem pyLoads_pyDumps (j : Json) (h : pyWf j = true) :
    pyLoads (pyDumps j) = .ok j := by
  show (match scanOnce ((skipJsonWs (String.mk (encodeVal j)).data).length + 1)
      (skipJsonWs (String.mk (encodeVal j)).data) with
    | Except.error e => Except.error e
    | Except.ok (v, rest) =>
        if (skipJsonWs rest).isEmpty then Except.ok v
        else Except.error "Extra data") = Except.ok j
  rw [show skipJsonWs (String.mk (encodeVal j)).data = encodeVal j from by
    have hskip := skipJsonWs_encodeVal j []
    simp only [List.append_nil] at hskip
    exact hskip]
  have hs := rt_scan j ((encodeVal j).length + 1) [] h (by omega) rfl
  rw [show encodeVal j ++ [] = encodeVal j from by simp] at hs
  rw [hs]
  rfl

theorem lookupKey_append_of_some (k : String) (ps qs : List (String × Json))
    (v : Json) (h : lookupKey k ps = some v) :
    lookupKey k (ps ++ qs) = some v := by
  induction ps with
  | nil => simp [lookupKey] at h
  | cons p tl ih =>
      simp only [lookupKey, List.cons_append] at h ⊢
      split at h
      · rename_i hk
        rw [if_pos hk]
        exact h
      · rename_i hk
        rw [if_neg hk]
        exact ih h

theorem lookupKey_addStrParam_found (k key : String) (w : Option String)
    (ps : List (String × Json)) (v : Json) (h : lookupKey k ps = some v) :
    lookupKey k (addStrParam ps key w) = some v := by
  cases w with
  | none => exact h
  | some s =>
      simp only [addStrParam]
      split
      · exact h
      · exact lookupKey_append_of_some k ps _ v h

/-! ### C5: the desired-state serialize-then-parse round trip -/

/-- **C5.**  For a structured (`dict`) `desired_state` — every object level
of which has distinct keys, as any value decoded from the MCP request
does — the transmitted payload's `DesiredState` field is exactly the
`json.dumps` text of that object, and that text is valid JSON whose parsed
form is the original object: the serialize-then-parse round trip is the
identity.  (Float-valued attributes are outside the embedding.) -/
theorem create_resource_desired_state_roundtrip (tn : String)
    (m : List (String × Json)) (ra ct : Option String)
    (outcome : CallOutcome MutationResponse) (h : pyWf (.obj m) = true) :
    lookupKey "DesiredState"
        (firstPayload (create_resource (some ()) tn (.asObj m) ra ct outcome)) =
      some (.str (pyDumps (.obj m))) ∧
    pyLoads (pyDumps (.obj m)) = .ok (.obj m) := by
  constructor
  · show lookupKey "DesiredState"
      (firstPayload (cloudControlCall MutationResponse _ _ outcome _)) = _
    rw [firstPayload, cloudControlCall_sent]
    exact lookupKey_addStrParam_found _ "ClientToken" ct _ _
      (lookupKey_addStrParam_found _ "RoleArn" ra _ _ rfl)
  · exact pyLoads_pyDumps (.obj m) h

/-- **C5, witness**: a concrete two-key desired state round-trips through
the transmitted `DesiredState` text. -/
theorem create_resource_desired_state_roundtrip_witness :
    lookupKey "DesiredState"
        (firstPayload (create_resource (some ()) "AWS::Logs::LogGroup"
          (.asObj [("LogGroupName", .str "my-group"), ("RetentionInDays", .int 30)])
          none none (.failure "boom"))) =
      some (.str (pyDumps (.obj [("LogGroupName", .str "my-group"),
        ("RetentionInDays", .int 30)]))) ∧
    pyLoads (pyDumps (.obj [("LogGroupName", .str "my-group"),
        ("RetentionInDays", .int 30)])) =
      .ok (.obj [("LogGroupName", .str "my-group"), ("RetentionInDays", .int 30)]) :=
  create_resource_desired_state_roundtrip "AWS::Logs::LogGroup"
    [("LogGroupName", .str "my-group"), ("RetentionInDays", .int 30)]
    none none (.failure "boom") (by rfl)


end CCServer



